import Mathlib

/-!
Verification of the flight-delay prediction backend (`newbackend.py`).

The Python source is shallowly embedded: pandas DataFrames become ordered
association lists of named columns over a `Cell` type (rational number,
string, or missing value `na`); the pre-trained model and the trigonometric
functions are opaque parameters; the FastAPI endpoints become pure functions
from an environment and the process-wide state to a response and a new state.

Conventions of the embedding, noted where they matter:
* floating-point values are modelled as exact rationals;
* `np.sin (2*pi*x)` / `np.cos (2*pi*x)` are modelled by opaque parameters
  `fsin x` / `fcos x`, so a sine/cosine encoding with period `d` of a value
  `v` appears as `fsin (v / d)` / `fcos (v / d)`;
* column names are assumed unique within a frame (pandas guarantees this for
  frames read from CSV; the synonym renaming in the source can in principle
  create duplicate names, a degenerate case outside every claim);
* arithmetic on a non-numeric cell yields `na` where pandas would raise a
  TypeError; every theorem about numeric behaviour carries numericity
  hypotheses, so no claim is decided by this convention.
-/

namespace FlightDelay

/-- One pandas cell: a numeric value, a string, or a missing value (NaN). -/
inductive Cell where
  | num (q : ℚ)
  | str (s : String)
  | na
deriving DecidableEq, Repr

/-- A DataFrame: an explicit row count plus ordered named columns.
Every column list is intended to have length `nrows`. -/
structure DF where
  nrows : Nat
  cols : List (String × List Cell)
deriving DecidableEq, Repr

/-- The ordered column names of a frame. -/
def DF.names (df : DF) : List String :=
  df.cols.map (·.1)

/-- Look up a column by name (first match, as in pandas `df[name]`). -/
def getColCore (name : String) : List (String × List Cell) → Option (List Cell)
  | [] => none
  | (m, w) :: rest => if m = name then some w else getColCore name rest

/-- Column lookup on a frame. -/
def DF.getCol (df : DF) (name : String) : Option (List Cell) :=
  getColCore name df.cols

/-- `df[name] = v`: replace the column in place if present, else append it. -/
def setColCore (name : String) (v : List Cell) : List (String × List Cell) → List (String × List Cell)
  | [] => [(name, v)]
  | (m, w) :: rest => if m = name then (name, v) :: rest else (m, w) :: setColCore name v rest

/-- Column assignment on a frame. -/
def DF.setCol (df : DF) (name : String) (v : List Cell) : DF :=
  ⟨df.nrows, setColCore name v df.cols⟩

/-- Drop a column (used by `pd.get_dummies` for the encoded column). -/
def DF.eraseCol (df : DF) (name : String) : DF :=
  ⟨df.nrows, df.cols.filter (fun c => ¬ c.1 = name)⟩

/-- Map a numeric function over a cell; `na` propagates.  A string cell also
becomes `na` here, where pandas would raise a TypeError; all value-level
theorems assume numeric cells, so nothing rests on this case. -/
def cellMap (f : ℚ → ℚ) : Cell → Cell
  | .num q => .num (f q)
  | _ => .na

-- -----------------------------
-- Risk classifier (source: risk_label)
-- -----------------------------

/-- `risk_label(value)`: bucket the absolute value with thresholds 15 and 60. -/
def risk_label (value : ℚ) : String :=
  let av := |value|
  if av < 15 then "LOW"
  else if av ≤ 60 then "MEDIUM"
  else "HIGH"

-- -----------------------------
-- Suggestions database (source: the three literal lists)
-- -----------------------------

def carrier_suggestions : List String := [
  "Check airline announcements for potential delays.",
  "Choose flights from carriers with high on-time performance.",
  "Arrive early to avoid long check-in queues.",
  "Avoid peak travel periods when airlines are heavily congested.",
  "Use airline mobile apps for real-time updates.",
  "Avoid tight layovers; keep at least 2 hours buffer.",
  "Check baggage rules to avoid extra processing delays.",
  "Complete online check-in early.",
  "If airline delay is confirmed, ask about rebooking options.",
  "Morning flights are generally more punctual; consider choosing them."]

def weather_suggestions : List String := [
  "Check weather forecasts for departure and destination.",
  "Avoid flights during seasons with frequent storms or fog.",
  "Keep extra travel buffer time during unstable weather.",
  "Bring portable chargers for long waiting hours.",
  "Track real-time gate updates at the airport.",
  "Use flight tracking apps like FlightAware.",
  "Plan your transportation early to avoid weather-caused traffic delays.",
  "Prefer major hub airports during bad weather seasons.",
  "Choose morning flights for more stable weather conditions.",
  "Request free rebooking if extreme weather occurs."]

def security_suggestions : List String := [
  "Arrive 2-3 hours early to account for security delay.",
  "Avoid carrying liquids or metal items unnecessarily.",
  "Use automated e-gates if available.",
  "Avoid peak periods such as 7-9am and 5-7pm.",
  "Prepare electronics and documents in advance.",
  "Check if your airport provides Fast Track security lanes.",
  "Avoid clothing with heavy metal accessories.",
  "Follow airport social media for real-time congestion updates.",
  "Travel with only carry-on bags to skip baggage queues.",
  "Book earlier flights during festive / peak seasons."]

/-- The fixed advisory appended when the total predicted delay exceeds 20. -/
def totalDelayAdvisory : String :=
  "High total predicted delay; consider alternative flights or adding buffer time."

-- -----------------------------
-- One prediction row (columns CARRIER_DELAY, SECURITY_DELAY, WEATHER_DELAY,
-- Total_Predicted_Delay of predictions_df)
-- -----------------------------

structure RowData where
  carrier : ℚ
  security : ℚ
  weather : ℚ
  total : ℚ
deriving DecidableEq, Repr

/-- The carrier if/elif block of `optimize_suggestions` (lines 152-155). -/
def carrierSection (c : ℚ) : List String :=
  if 15 < c then carrier_suggestions.take 5
  else if 5 < c then [carrier_suggestions.getD 0 ""]
  else []

/-- The weather if/elif block of `optimize_suggestions` (lines 156-159). -/
def weatherSection (w : ℚ) : List String :=
  if 10 < w then weather_suggestions.take 5
  else if 5 < w then [weather_suggestions.getD 0 ""]
  else []

/-- The security if/elif block of `optimize_suggestions` (lines 160-163). -/
def securitySection (s : ℚ) : List String :=
  if 5 < s then security_suggestions.take 5
  else if 2 < s then [security_suggestions.getD 0 ""]
  else []

/-- The total-delay block of `optimize_suggestions` (lines 164-165). -/
def totalSection (t : ℚ) : List String :=
  if 20 < t then [totalDelayAdvisory] else []

/-- `optimize_suggestions(row)`: the list built by the four sequential
append blocks of the source, in source order. -/
def optimize_suggestions (row : RowData) : List String :=
  carrierSection row.carrier ++ weatherSection row.weather
    ++ securitySection row.security ++ totalSection row.total

-- -----------------------------
-- Sorting and median (pandas Series.median over the non-missing values)
-- -----------------------------

/-- Insert into a list sorted by `le`. -/
def insertSortedBy {α : Type} (le : α → α → Bool) (a : α) : List α → List α
  | [] => [a]
  | b :: rest => if le a b then a :: b :: rest else b :: insertSortedBy le a rest

/-- Insertion sort by `le`. -/
def sortBy {α : Type} (le : α → α → Bool) : List α → List α
  | [] => []
  | a :: rest => insertSortedBy le a (sortBy le rest)

/-- The numeric values of a column, missing values skipped. -/
def colVals (v : List Cell) : List ℚ :=
  v.filterMap (fun c => match c with | .num q => some q | _ => none)

/-- pandas `Series.median()`: sort the non-missing values; odd count takes the
middle element, even count averages the two middle elements, empty is NaN
(modelled as `none`). -/
def median (xs : List ℚ) : Option ℚ :=
  let s := sortBy (fun a b => decide (a ≤ b)) xs
  let k := s.length
  if k = 0 then none
  else if k % 2 = 1 then s.get? (k / 2)
  else
    match s.get? (k / 2 - 1), s.get? (k / 2) with
    | some a, some b => some ((a + b) / 2)
    | _, _ => none

/-- Whether a column has a numeric pandas dtype: no string entries
(a column of numbers and NaNs reads as float; any string makes it object). -/
def isNumericCol (v : List Cell) : Bool :=
  v.all (fun c => match c with | .str _ => false | _ => true)

/-- `series.fillna(series.median())`: replace every missing value by the
column median; when the column has no values the median is NaN and the
column is unchanged. -/
def fillNaCol (v : List Cell) : List Cell :=
  match median (colVals v) with
  | none => v
  | some m => v.map (fun c => if c = Cell.na then Cell.num m else c)

-- -----------------------------
-- Feature aligner (source: transform_data_for_inference)
-- -----------------------------

/-- The fixed synonym table (source lines 92-98). -/
def applyMapping (n : String) : String :=
  if n = "MKT_UNIQUE_CARRIER" then "MARKETING_AIRLINE"
  else if n = "OP_UNIQUE_CARRIER" then "OPERATING_AIRLINE"
  else if n = "ORIGIN" then "ORIGIN_AIRPORT_CODE"
  else if n = "ORIGIN_STATE_ABR" then "ORIGIN_STATE"
  else if n = "DEST" then "DEST_AIRPORT_CODE"
  else if n = "DEST_STATE_ABR" then "DEST_STATE"
  else if n = "DEP_TIME_BLK" then "DEPARTURE_BLOCK"
  else if n = "ARR_TIME_BLK" then "ARRIVAL_BLOCK"
  else n

/-- `df.rename(columns=column_mapping)`. -/
def renameCols (df : DF) : DF :=
  ⟨df.nrows, df.cols.map (fun c => (applyMapping c.1, c.2))⟩

/-- Fill missing values of every numeric column with that column's median
(source lines 102-103). -/
def imputeNumeric (df : DF) : DF :=
  ⟨df.nrows, df.cols.map (fun c => (c.1, if isNumericCol c.2 then fillNaCol c.2 else c.2))⟩

/-- Wrap an integer into int8 range, as numpy `astype(np.int8)` does. -/
def int8wrap (n : ℤ) : ℤ :=
  (n + 128) % 256 - 128

/-- Truncation toward zero, the float-to-int conversion of `astype`. -/
def ratTrunc (q : ℚ) : ℤ :=
  if 0 ≤ q then ⌊q⌋ else -⌊-q⌋

/-- `CRS_DEP_TIME // 100` then `astype(np.int8)`: the floor quotient is
already integral, so the conversion only wraps. -/
def hourOf (q : ℚ) : ℚ :=
  ((int8wrap ⌊q / 100⌋ : ℤ) : ℚ)

/-- `CRS_DEP_TIME % 100` then `astype(np.int8)`: numpy float mod, truncated
toward zero and wrapped. -/
def minuteOf (q : ℚ) : ℚ :=
  ((int8wrap (ratTrunc (q - 100 * ⌊q / 100⌋)) : ℤ) : ℚ)

/-- Source lines 106-112: when `CRS_DEP_TIME` is present, assign `DEP_HOUR`,
`DEP_MINUTE` and their sine/cosine pairs (periods 24 and 60).  The sine and
cosine columns read the already-assigned (int8-cast) hour/minute columns. -/
def addTimeFeatures (fsin fcos : ℚ → ℚ) (df : DF) : DF :=
  match df.getCol "CRS_DEP_TIME" with
  | none => df
  | some v =>
    let hour := v.map (cellMap hourOf)
    let minute := v.map (cellMap minuteOf)
    let d1 := df.setCol "DEP_HOUR" hour
    let d2 := d1.setCol "DEP_MINUTE" minute
    let d3 := d2.setCol "DEP_HOUR_SIN" (hour.map (cellMap (fun h => fsin (h / 24))))
    let d4 := d3.setCol "DEP_HOUR_COS" (hour.map (cellMap (fun h => fcos (h / 24))))
    let d5 := d4.setCol "DEP_MIN_SIN" (minute.map (cellMap (fun m => fsin (m / 60))))
    d5.setCol "DEP_MIN_COS" (minute.map (cellMap (fun m => fcos (m / 60))))

/-- One iteration of the loop at source lines 113-117: sine/cosine pair of
`name` over period `d`, when the column is present. -/
def addCyclicFor (fsin fcos : ℚ → ℚ) (name : String) (d : ℚ) (df : DF) : DF :=
  match df.getCol name with
  | none => df
  | some v =>
    (df.setCol (name ++ "_SIN") (v.map (cellMap (fun q => fsin (q / d))))).setCol
      (name ++ "_COS") (v.map (cellMap (fun q => fcos (q / d))))

/-- The loop at source lines 113-117, in source order: `MONTH` (period 12)
then `DAY_OF_WEEK` (period 7). -/
def addCyclic (fsin fcos : ℚ → ℚ) (df : DF) : DF :=
  addCyclicFor fsin fcos "DAY_OF_WEEK" 7 (addCyclicFor fsin fcos "MONTH" 12 df)

/-- `CATEGORICAL_COLS_FOR_XGB` (source lines 27-30). -/
def CATEGORICAL_COLS_FOR_XGB : List String :=
  ["ORIGIN_AIRPORT_CODE", "DEST_AIRPORT_CODE", "MARKETING_AIRLINE",
   "ORIGIN_STATE", "DEST_STATE", "DEPARTURE_BLOCK", "ARRIVAL_BLOCK"]

/-- Source lines 120-124: a present categorical column keeps its values (the
dtype cast carries no value change in this embedding); an absent one is
inserted as an all-missing column. -/
def addCategoricals (df : DF) : DF :=
  CATEGORICAL_COLS_FOR_XGB.foldl
    (fun d c => if c ∈ d.names then d else d.setCol c (List.replicate d.nrows Cell.na))
    df

/-- The string values of a column, in first-occurrence order without
duplicates. -/
def uniqueStrs (v : List Cell) : List String :=
  (v.filterMap (fun c => match c with | .str s => some s | _ => none)).foldl
    (fun acc s => if s ∈ acc then acc else acc ++ [s]) []

/-- Source lines 127-128: `pd.get_dummies(df, columns=['OPERATING_AIRLINE'],
prefix='AIRLINE', dtype='int8')`.  The encoded column is removed and one
0/1 indicator column per distinct value, in sorted order, is appended. -/
def oneHotAirline (df : DF) : DF :=
  match df.getCol "OPERATING_AIRLINE" with
  | none => df
  | some v =>
    let vals := sortBy (fun a b => !decide (b < a)) (uniqueStrs v)
    vals.foldl
      (fun d s => d.setCol ("AIRLINE_" ++ s)
        (v.map (fun c => if c = Cell.str s then Cell.num 1 else Cell.num 0)))
      (df.eraseCol "OPERATING_AIRLINE")

/-- Everything `transform_data_for_inference` does before the final
projection: rename, impute, engineer time features, cast/insert categorical
columns, one-hot expand the operating airline. -/
def preAlign (fsin fcos : ℚ → ℚ) (df : DF) : DF :=
  oneHotAirline (addCategoricals (addCyclic fsin fcos
    (addTimeFeatures fsin fcos (imputeNumeric (renameCols df)))))

/-- `df_new[feature] if feature in df_new.columns else 0`: the copied
column, or the scalar 0 broadcast over the rows. -/
def colOrZero (df : DF) (f : String) : List Cell :=
  match df.getCol f with
  | some v => v
  | none => List.replicate df.nrows (Cell.num 0)

/-- Source lines 131-133: build `final_df` feature by feature, copying the
column when present and broadcasting the scalar 0 otherwise. -/
def alignFeatures (df : DF) (features : List String) : DF :=
  features.foldl (fun acc f => acc.setCol f (colOrZero df f)) ⟨df.nrows, []⟩

/-- `transform_data_for_inference(df_new, trained_feature_names)`. -/
def transform_data_for_inference (fsin fcos : ℚ → ℚ) (df_new : DF)
    (trained_feature_names : List String) : DF :=
  alignFeatures (preAlign fsin fcos df_new) trained_feature_names

-- -----------------------------
-- Anomaly table (source: detect_anomalies)
-- -----------------------------

/-- One row of risk labels, in the order of `TARGET_COLUMNS`
(`CARRIER_DELAY`, `SECURITY_DELAY`, `WEATHER_DELAY`). -/
structure RiskRow where
  carrierRisk : String
  securityRisk : String
  weatherRisk : String
deriving DecidableEq, Repr

/-- The risk labels of one prediction row. -/
def riskOf (r : RowData) : RiskRow :=
  ⟨risk_label r.carrier, risk_label r.security, risk_label r.weather⟩

/-- `predictions_df`: the optional `TAIL_NUMBER` column plus one row of
predictions per input row. -/
structure PredTable where
  tails : Option (List Cell)
  rows : List RowData
deriving DecidableEq, Repr

/-- `anomalies_df`: same shape, risk labels per row. -/
structure AnomTable where
  tails : Option (List Cell)
  rows : List RiskRow
deriving DecidableEq, Repr

/-- `detect_anomalies(pred_df)`: copy the tail column when present, apply
`risk_label` to each target column. -/
def detect_anomalies (pred_df : PredTable) : AnomTable :=
  ⟨pred_df.tails, pred_df.rows.map riskOf⟩

-- -----------------------------
-- API layer (source: predict_csv, get_flight_info)
-- -----------------------------

/-- Elementwise pandas equality as used in the boolean masks: a missing
value compares unequal to everything (NaN semantics), and values of
different kinds compare unequal. -/
def pandasEq : Cell → Cell → Bool
  | .num a, .num b => a == b
  | .str a, .str b => a == b
  | _, _ => false

/-- The anomaly-row dictionary serialized into a result
(`to_dict` of one row of `anomalies_df`). -/
structure AnomDict where
  tail : Cell
  risks : RiskRow
deriving DecidableEq, Repr

/-- One per-flight result object of the success envelope. -/
structure FlightResult where
  tail : Cell
  carrier : ℚ
  weather : ℚ
  security : ℚ
  total : ℚ
  anomalies : AnomDict
  suggestions : List String
deriving DecidableEq, Repr

/-- `anomalies_df[anomalies_df[TAIL_NUMBER_COL]==t]` followed by taking the
first row: the first (tail, risks) pair matching `t`. -/
def anomFirst (ats : List Cell) (arows : List RiskRow) (t : Cell) :
    Option (Cell × RiskRow) :=
  ((ats.zip arows).filter (fun p => pandasEq p.1 t)).head?

/-- Build one result object (the dict appended at source lines 207-215). -/
def mkEntry (t : Cell) (r : RowData) (p : Cell × RiskRow) : FlightResult :=
  { tail := t, carrier := r.carrier, weather := r.weather,
    security := r.security, total := r.total,
    anomalies := ⟨p.1, p.2⟩, suggestions := optimize_suggestions r }

/-- The tail identifier of row `i`: the `TAIL_NUMBER` cell when the column
exists, else the `Flight_{i}` fallback. -/
def tailAt (tails : Option (List Cell)) (i : Nat) : Cell :=
  match tails with
  | some ts => ts[i]?.getD Cell.na
  | none => .str ("Flight_" ++ toString i)

/-- The result-building loop of `predict_csv` (source lines 204-215).
Reading the missing `TAIL_NUMBER` column of `anomalies_df` raises a
KeyError; an empty anomaly match raises an IndexError at `[0]`.  Either
exception aborts the loop. -/
def buildGo (tails : Option (List Cell)) (an : AnomTable) (i : Nat) :
    List RowData → Except String (List FlightResult)
  | [] => .ok []
  | r :: rest =>
    let t := tailAt tails i
    match an.tails with
    | none => .error "KeyError: TAIL_NUMBER"
    | some ats =>
      match anomFirst ats an.rows t with
      | none => .error "IndexError: single positional indexer is out-of-bounds"
      | some p =>
        match buildGo tails an (i + 1) rest with
        | .error m => .error m
        | .ok out => .ok (mkEntry t r p :: out)

/-- The whole result loop over `predictions_df`. -/
def buildResults (pt : PredTable) (an : AnomTable) : Except String (List FlightResult) :=
  buildGo pt.tails an 0 pt.rows

/-- The process-wide mutable state: the last `predictions_df` and
`anomalies_df` (the stored `uploaded_df` is never read by any endpoint). -/
structure State where
  preds : PredTable
  anoms : AnomTable
deriving DecidableEq, Repr

/-- The state at process start: two empty frames. -/
def initialState : State :=
  ⟨⟨none, []⟩, ⟨none, []⟩⟩

/-- A `/predict-csv` response: the success envelope, the error envelope
produced by the `except Exception` handler, or an exception escaping the
endpoint.  No execution path of `predict_csv` produces `fault`: the handler
catches every exception, including `FileNotFoundError`. -/
inductive Response where
  | success (predictions : List FlightResult)
  | errorEnvelope (message : String)
  | fault (message : String)
deriving DecidableEq, Repr

/-- A `/get-flight-info` response: a message object (`{"error": ...}`), a
found result, or an uncaught exception (this endpoint has no handler). -/
inductive LookupResult where
  | message (msg : String)
  | found (r : FlightResult)
  | fault (msg : String)
deriving DecidableEq, Repr

/-- The external collaborators of the endpoint: the feature-name list file
(absent or its lines) and the opaque model artifact, which may itself fail
(load or inference error). -/
structure Env where
  featureFile : Option (List String)
  predictor : DF → Except String (List (ℚ × ℚ × ℚ))
  fsin : ℚ → ℚ
  fcos : ℚ → ℚ

/-- `load_feature_names()` (source lines 84-88): raises `FileNotFoundError`
when the file is absent. -/
def load_feature_names (env : Env) : Except String (List String) :=
  match env.featureFile with
  | none => .error "Feature names file feature_names.txt not found."
  | some lines => .ok lines

/-- Build `predictions_df` from the model output (columns in `TARGET_COLUMNS`
order: carrier, security, weather; the total is the row sum) and insert the
`TAIL_NUMBER` column of the upload when it exists. -/
def mkPredTable (uploaded : DF) (preds : List (ℚ × ℚ × ℚ)) : PredTable :=
  { tails := uploaded.getCol "TAIL_NUMBER",
    rows := preds.map (fun p => ⟨p.1, p.2.1, p.2.2, p.1 + p.2.1 + p.2.2⟩) }

/-- `POST /predict-csv`: the whole body runs inside `try`; any raised
exception is converted into the error envelope.  The globals
`predictions_df` and `anomalies_df` are reassigned before the result loop
runs, so a loop failure still leaves the new tables in the state. -/
def predict_csv (env : Env) (st : State) (uploaded : DF) : Response × State :=
  match load_feature_names env with
  | .error m => (.errorEnvelope m, st)
  | .ok feature_names =>
    let X_inf := transform_data_for_inference env.fsin env.fcos uploaded feature_names
    match env.predictor X_inf with
    | .error m => (.errorEnvelope m, st)
    | .ok y_pred =>
      let pt := mkPredTable uploaded y_pred
      let an := detect_anomalies pt
      let st' : State := ⟨pt, an⟩
      match buildResults pt an with
      | .error m => (.errorEnvelope m, st')
      | .ok results => (.success results, st')

/-- `GET /get-flight-info/{tail_number}` (source lines 222-240).  Reading
the `TAIL_NUMBER` column of a nonempty frame that lacks it raises a
KeyError, and this endpoint has no exception handler. -/
def get_flight_info (st : State) (tail_number : String) : LookupResult :=
  if st.preds.rows.isEmpty then
    .message "No predictions available. Please upload a CSV first."
  else
    match st.preds.tails with
    | none => .fault "KeyError: TAIL_NUMBER"
    | some ts =>
      match ((ts.zip st.preds.rows).filter
          (fun p => pandasEq p.1 (.str tail_number))).head? with
      | none => .message "Tail number not found."
      | some (tc, r) =>
        match st.anoms.tails with
        | none => .fault "KeyError: TAIL_NUMBER"
        | some ats =>
          match anomFirst ats st.anoms.rows (.str tail_number) with
          | none => .fault "IndexError: single positional indexer is out-of-bounds"
          | some p => .found (mkEntry tc r p)

-- -----------------------------
-- Shared lemmas
-- -----------------------------

theorem getColCore_map_val (f : String → List Cell → List Cell) (c : String) :
    ∀ l : List (String × List Cell),
      getColCore c (l.map fun p => (p.1, f p.1 p.2)) = (getColCore c l).map (f c) := by
  intro l
  induction l with
  | nil => rfl
  | cons hd tl ih =>
    by_cases h : hd.1 = c
    · simp [getColCore, h]
    · simp [getColCore, h, ih]

theorem getCol_imputeNumeric (df : DF) (c : String) (v : List Cell)
    (hv : df.getCol c = some v) (hnum : isNumericCol v = true) :
    (imputeNumeric df).getCol c = some (fillNaCol v) := by
  have h := getColCore_map_val
    (fun _ w => if isNumericCol w = true then fillNaCol w else w) c df.cols
  have hv' : getColCore c df.cols = some v := hv
  show getColCore c
    (df.cols.map fun p =>
      (p.1, (fun _ w => if isNumericCol w = true then fillNaCol w else w) p.1 p.2)) = _
  rw [h, hv']
  simp [hnum]

theorem getColCore_setCol_self (n : String) (v : List Cell) :
    ∀ l, getColCore n (setColCore n v l) = some v := by
  intro l
  induction l with
  | nil => simp [setColCore, getColCore]
  | cons hd tl ih =>
    obtain ⟨m, w⟩ := hd
    by_cases h : m = n
    · simp [setColCore, h, getColCore]
    · simp [setColCore, h, getColCore, ih]

theorem getColCore_setCol_ne (n m : String) (v : List Cell) (hnm : ¬ n = m) :
    ∀ l, getColCore m (setColCore n v l) = getColCore m l := by
  intro l
  induction l with
  | nil => simp [setColCore, getColCore, hnm]
  | cons hd tl ih =>
    obtain ⟨a, w⟩ := hd
    by_cases h : a = n
    · subst h
      simp [setColCore, getColCore, hnm]
    · simp [setColCore, h, getColCore, ih]

theorem namesCore_setCol_of_mem (n : String) (v : List Cell) :
    ∀ l, n ∈ l.map Prod.fst → (setColCore n v l).map Prod.fst = l.map Prod.fst := by
  intro l
  induction l with
  | nil => simp
  | cons hd tl ih =>
    obtain ⟨a, w⟩ := hd
    intro hmem
    by_cases h : a = n
    · simp [setColCore, h]
    · have hmem' : n ∈ a :: tl.map Prod.fst := hmem
      have : n ∈ tl.map Prod.fst := by
        rcases List.mem_cons.1 hmem' with h' | h'
        · exact absurd h'.symm h
        · exact h'
      simp [setColCore, h, ih this]

theorem namesCore_setCol_of_not_mem (n : String) (v : List Cell) :
    ∀ l, n ∉ l.map Prod.fst → (setColCore n v l).map Prod.fst = l.map Prod.fst ++ [n] := by
  intro l
  induction l with
  | nil => simp [setColCore]
  | cons hd tl ih =>
    obtain ⟨a, w⟩ := hd
    intro hmem
    have ha : ¬ a = n := fun h => hmem (by simp [h])
    have htl : n ∉ tl.map Prod.fst := fun h => hmem (by simp [h])
    simp [setColCore, ha, ih htl]

theorem getColCore_eq_none_iff (n : String) :
    ∀ l, getColCore n l = none ↔ n ∉ l.map Prod.fst := by
  intro l
  induction l with
  | nil => simp [getColCore]
  | cons hd tl ih =>
    obtain ⟨a, w⟩ := hd
    by_cases h : a = n
    · simp [getColCore, h]
    · have hred : getColCore n ((a, w) :: tl) = getColCore n tl := by
        simp [getColCore, h]
      rw [hred, ih]
      constructor
      · intro hn hmem
        rcases List.mem_cons.1 (show n ∈ a :: tl.map Prod.fst from hmem) with h' | h'
        · exact h h'.symm
        · exact hn h'
      · intro hn h'
        exact hn (List.mem_cons_of_mem a h')

theorem DF.getCol_setCol_self (df : DF) (n : String) (v : List Cell) :
    (df.setCol n v).getCol n = some v :=
  getColCore_setCol_self n v df.cols

theorem DF.getCol_setCol_ne (df : DF) (n m : String) (v : List Cell) (h : ¬ n = m) :
    (df.setCol n v).getCol m = df.getCol m :=
  getColCore_setCol_ne n m v h df.cols

theorem DF.mem_names_setCol (df : DF) (n m : String) (v : List Cell) :
    m ∈ (df.setCol n v).names ↔ m ∈ df.names ∨ m = n := by
  unfold DF.names DF.setCol
  by_cases h : n ∈ df.cols.map Prod.fst
  · rw [namesCore_setCol_of_mem n v df.cols h]
    exact ⟨Or.inl, fun hc => hc.elim id (fun he => he ▸ h)⟩
  · rw [namesCore_setCol_of_not_mem n v df.cols h]
    simp

theorem DF.names_setCol_of_not_mem (df : DF) (n : String) (v : List Cell)
    (h : n ∉ df.names) : (df.setCol n v).names = df.names ++ [n] :=
  namesCore_setCol_of_not_mem n v df.cols h

theorem DF.getCol_eq_none_iff (df : DF) (n : String) :
    df.getCol n = none ↔ n ∉ df.names :=
  getColCore_eq_none_iff n df.cols

theorem align_mem_names (df6 : DF) :
    ∀ (F : List String) (acc : DF) (n : String),
      n ∈ ((F.foldl (fun acc f => acc.setCol f (colOrZero df6 f)) acc).names)
        ↔ n ∈ acc.names ∨ n ∈ F := by
  intro F
  induction F with
  | nil => simp
  | cons f rest ih =>
    intro acc n
    simp only [List.foldl_cons]
    rw [ih, DF.mem_names_setCol]
    simp [or_assoc, or_comm, or_left_comm]

theorem align_names_nodup (df6 : DF) :
    ∀ (F : List String) (acc : DF), F.Nodup → (∀ f ∈ F, f ∉ acc.names) →
      (F.foldl (fun acc f => acc.setCol f (colOrZero df6 f)) acc).names = acc.names ++ F := by
  intro F
  induction F with
  | nil => simp
  | cons f rest ih =>
    intro acc hnd hfresh
    simp only [List.foldl_cons]
    have hf : f ∉ acc.names := hfresh f (by simp)
    have hrest : ∀ g ∈ rest, g ∉ (acc.setCol f (colOrZero df6 f)).names := by
      intro g hg
      rw [DF.mem_names_setCol]
      rintro (hc | hc)
      · exact hfresh g (by simp [hg]) hc
      · exact (List.nodup_cons.1 hnd).1 (hc ▸ hg)
    rw [ih _ (List.nodup_cons.1 hnd).2 hrest,
      DF.names_setCol_of_not_mem acc f _ hf]
    simp

theorem align_getCol (df6 : DF) :
    ∀ (F : List String) (acc : DF) (f : String),
      (f ∈ F ∨ acc.getCol f = some (colOrZero df6 f)) →
      (F.foldl (fun acc f => acc.setCol f (colOrZero df6 f)) acc).getCol f
        = some (colOrZero df6 f) := by
  intro F
  induction F with
  | nil =>
    intro acc f h
    simpa using h.elim (fun hc => absurd hc (List.not_mem_nil f)) id
  | cons g rest ih =>
    intro acc f h
    simp only [List.foldl_cons]
    by_cases hfg : f = g
    · subst hfg
      exact ih _ f (Or.inr (DF.getCol_setCol_self acc f _))
    · refine ih _ f ?_
      rcases h with hmem | hval
      · rcases (by simpa using hmem) with hc | hc
        · exact absurd hc hfg
        · exact Or.inl hc
      · exact Or.inr ((DF.getCol_setCol_ne acc g f _ (fun hgf => hfg hgf.symm)).trans hval)

theorem nrows_foldl {β : Type} (g : DF → β → DF) (hg : ∀ d b, (g d b).nrows = d.nrows) :
    ∀ (l : List β) (d : DF), (l.foldl g d).nrows = d.nrows := by
  intro l
  induction l with
  | nil => intro d; rfl
  | cons b rest ih => intro d; rw [List.foldl_cons, ih, hg]

theorem nrows_setCol (df : DF) (n : String) (v : List Cell) :
    (df.setCol n v).nrows = df.nrows := rfl

theorem nrows_addTimeFeatures (fsin fcos : ℚ → ℚ) (df : DF) :
    (addTimeFeatures fsin fcos df).nrows = df.nrows := by
  unfold addTimeFeatures
  cases df.getCol "CRS_DEP_TIME" <;> rfl

theorem nrows_addCyclicFor (fsin fcos : ℚ → ℚ) (name : String) (d : ℚ) (df : DF) :
    (addCyclicFor fsin fcos name d df).nrows = df.nrows := by
  unfold addCyclicFor
  cases df.getCol name <;> rfl

theorem nrows_addCategoricals (df : DF) : (addCategoricals df).nrows = df.nrows :=
  nrows_foldl _ (fun d b => by by_cases h : b ∈ d.names <;> simp [h, nrows_setCol]) _ df

theorem nrows_oneHotAirline (df : DF) : (oneHotAirline df).nrows = df.nrows := by
  unfold oneHotAirline
  cases df.getCol "OPERATING_AIRLINE" with
  | none => rfl
  | some v =>
    exact nrows_foldl
      (fun d s => d.setCol ("AIRLINE_" ++ s)
        (v.map (fun c => if c = Cell.str s then Cell.num 1 else Cell.num 0)))
      (fun d b => rfl) _ _

theorem nrows_preAlign (fsin fcos : ℚ → ℚ) (df : DF) :
    (preAlign fsin fcos df).nrows = df.nrows := by
  unfold preAlign
  rw [nrows_oneHotAirline, nrows_addCategoricals]
  unfold addCyclic
  rw [nrows_addCyclicFor, nrows_addCyclicFor, nrows_addTimeFeatures]
  rfl

theorem getElem?_zip_of {α β : Type} :
    ∀ (l : List α) (l' : List β) (i : Nat) (a : α) (b : β),
      l[i]? = some a → l'[i]? = some b → (l.zip l')[i]? = some (a, b) := by
  intro l
  induction l with
  | nil => intro l' i a b h; simp at h
  | cons x xs ih =>
    intro l' i a b h1 h2
    cases l' with
    | nil => simp at h2
    | cons y ys =>
      cases i with
      | zero =>
        simp only [List.getElem?_cons_zero, Option.some.injEq] at h1 h2
        simp [List.zip_cons_cons, h1, h2]
      | succ j =>
        simp only [List.getElem?_cons_succ] at h1 h2
        simpa [List.zip_cons_cons] using ih ys j a b h1 h2

theorem getElem?_zip_inv {α β : Type} :
    ∀ (l : List α) (l' : List β) (i : Nat) (a : α) (b : β),
      (l.zip l')[i]? = some (a, b) → l[i]? = some a ∧ l'[i]? = some b := by
  intro l
  induction l with
  | nil => intro l' i a b h; simp at h
  | cons x xs ih =>
    intro l' i a b h
    cases l' with
    | nil => simp at h
    | cons y ys =>
      cases i with
      | zero =>
        simp only [List.zip_cons_cons, List.getElem?_cons_zero, Option.some.injEq,
          Prod.mk.injEq] at h
        simp [h.1, h.2]
      | succ j =>
        simp only [List.zip_cons_cons, List.getElem?_cons_succ] at h ⊢
        exact ih ys j a b h

theorem filter_head_of_first {α : Type} (p : α → Bool) :
    ∀ (l : List α) (i : Nat) (a : α), l[i]? = some a → p a = true →
      (∀ k, k < i → ∀ b, l[k]? = some b → p b = false) →
      (l.filter p).head? = some a := by
  intro l
  induction l with
  | nil => intro i a h; simp at h
  | cons x rest ih =>
    intro i a ha hpa hk
    cases i with
    | zero =>
      simp only [List.getElem?_cons_zero, Option.some.injEq] at ha
      subst ha
      simp [List.filter_cons, hpa]
    | succ j =>
      have hx : p x = false := hk 0 (Nat.succ_pos j) x (by simp)
      simp only [List.getElem?_cons_succ] at ha
      simp only [List.filter_cons, hx, Bool.false_eq_true, if_neg]
      exact ih j a ha hpa
        (fun k hkj b hb => hk (k + 1) (Nat.succ_lt_succ hkj) b (by simpa using hb))

theorem pandasEq_str_self (s : String) : pandasEq (Cell.str s) (Cell.str s) = true := by
  simp [pandasEq]

theorem pandasEq_str_false (c : Cell) (s : String) (h : ¬ c = Cell.str s) :
    pandasEq c (Cell.str s) = false := by
  cases c with
  | num q => simp [pandasEq]
  | na => simp [pandasEq]
  | str a =>
    have ha : ¬ a = s := fun he => h (he ▸ rfl)
    simp [pandasEq, ha]

theorem tailAt_eq_str (ts : List Cell) (i : Nat) (s : String)
    (h : tailAt (some ts) i = Cell.str s) : ts[i]? = some (Cell.str s) := by
  have h' : ts[i]?.getD Cell.na = Cell.str s := h
  cases hts : ts[i]? with
  | none =>
    rw [hts] at h'
    exact absurd h' (by simp)
  | some c =>
    rw [hts] at h'
    simp only [Option.getD_some] at h'
    rw [h']

theorem buildGo_ok_none_tails (an : AnomTable) (han : an.tails = none) :
    ∀ (tails : Option (List Cell)) (i : Nat) (rows : List RowData)
      (res : List FlightResult),
      buildGo tails an i rows = .ok res → rows = [] := by
  intro tails i rows res h
  cases rows with
  | nil => rfl
  | cons r rest => simp [buildGo, han] at h

theorem buildGo_ok_spec (ats : List Cell) (arows : List RiskRow) :
    ∀ (rows : List RowData) (tails : Option (List Cell)) (i : Nat)
      (res : List FlightResult),
      buildGo tails ⟨some ats, arows⟩ i rows = .ok res →
      res.length = rows.length ∧
      ∀ (k : Nat) (r : RowData), rows[k]? = some r →
        ∃ p, anomFirst ats arows (tailAt tails (i + k)) = some p
          ∧ res[k]? = some (mkEntry (tailAt tails (i + k)) r p) := by
  intro rows
  induction rows with
  | nil =>
    intro tails i res h
    simp only [buildGo, Except.ok.injEq] at h
    subst h
    exact ⟨rfl, by intro k r hk; simp at hk⟩
  | cons r0 rest ih =>
    intro tails i res h
    cases haf : anomFirst ats arows (tailAt tails i) with
    | none => simp [buildGo, haf] at h
    | some p =>
      cases hrec : buildGo tails ⟨some ats, arows⟩ (i + 1) rest with
      | error m => simp [buildGo, haf, hrec] at h
      | ok out =>
        have hres : res = mkEntry (tailAt tails i) r0 p :: out := by
          simp only [buildGo, haf, hrec, Except.ok.injEq] at h
          exact h.symm
        obtain ⟨hlen, hspec⟩ := ih tails (i + 1) out hrec
        subst hres
        refine ⟨by simp [hlen], ?_⟩
        intro k r hk
        cases k with
        | zero =>
          simp only [List.getElem?_cons_zero, Option.some.injEq] at hk
          subst hk
          exact ⟨p, by simpa using haf, by simp⟩
        | succ j =>
          simp only [List.getElem?_cons_succ] at hk
          obtain ⟨p', hp', hr'⟩ := hspec j r hk
          have harith : i + (j + 1) = i + 1 + j := by omega
          exact ⟨p', by rw [harith]; exact hp', by rw [harith]; simpa using hr'⟩

theorem anomFirst_of_first (ts : List Cell) (arows : List RiskRow) (tn : String)
    (i : Nat) (a : RiskRow)
    (hts : ts[i]? = some (Cell.str tn)) (ha : arows[i]? = some a)
    (hfirst : ∀ k, k < i → ∀ c, ts[k]? = some c → ¬ c = Cell.str tn) :
    anomFirst ts arows (Cell.str tn) = some (Cell.str tn, a) := by
  unfold anomFirst
  refine filter_head_of_first _ (ts.zip arows) i (Cell.str tn, a)
    (getElem?_zip_of ts arows i _ _ hts ha) (pandasEq_str_self tn) ?_
  intro k hk b hb
  obtain ⟨hb1, _⟩ := getElem?_zip_inv ts arows k b.1 b.2 (by simpa using hb)
  exact pandasEq_str_false b.1 tn (hfirst k hk b.1 hb1)

/-- The found branch of the lookup on a post-upload state: the first row
whose tail cell equals the queried string determines the result. -/
theorem lookup_state_found (pt : PredTable) (ts : List Cell) (tn : String)
    (i : Nat) (ri : RowData) (hpt : pt.tails = some ts)
    (hts : ts[i]? = some (Cell.str tn)) (hrows : pt.rows[i]? = some ri)
    (hfirst : ∀ k, k < i → ∀ c, ts[k]? = some c → ¬ c = Cell.str tn) :
    get_flight_info ⟨pt, detect_anomalies pt⟩ tn
      = .found (mkEntry (Cell.str tn) ri (Cell.str tn, riskOf ri)) := by
  have hlen : i < pt.rows.length := by
    rcases List.getElem?_eq_some.1 hrows with ⟨h, _⟩
    exact h
  have hne : pt.rows.isEmpty = false := by
    cases hr : pt.rows with
    | nil => rw [hr] at hlen; simp at hlen
    | cons a l => rfl
  have hhead : ((ts.zip pt.rows).filter (fun p => pandasEq p.1 (Cell.str tn))).head?
      = some (Cell.str tn, ri) := by
    refine filter_head_of_first _ (ts.zip pt.rows) i (Cell.str tn, ri)
      (getElem?_zip_of ts pt.rows i _ _ hts hrows) (pandasEq_str_self tn) ?_
    intro k hk b hb
    obtain ⟨hb1, _⟩ := getElem?_zip_inv ts pt.rows k b.1 b.2 (by simpa using hb)
    exact pandasEq_str_false b.1 tn (hfirst k hk b.1 hb1)
  have hanom : anomFirst ts (pt.rows.map riskOf) (Cell.str tn)
      = some (Cell.str tn, riskOf ri) :=
    anomFirst_of_first ts (pt.rows.map riskOf) tn i (riskOf ri) hts
      (by rw [List.getElem?_map, hrows]; rfl) hfirst
  simp [get_flight_info, detect_anomalies, hpt, hne, hhead, hanom]

/-- The not-found branch of the lookup on a post-upload state: no zipped
(tail, row) pair matches the queried string. -/
theorem lookup_state_not_found (pt : PredTable) (ts : List Cell) (tn : String)
    (hpt : pt.tails = some ts) (hne : pt.rows ≠ [])
    (hnomatch : ∀ (k : Nat) (c : Cell) (r : RowData),
      ts[k]? = some c → pt.rows[k]? = some r → ¬ c = Cell.str tn) :
    get_flight_info ⟨pt, detect_anomalies pt⟩ tn
      = .message "Tail number not found." := by
  have hempty : pt.rows.isEmpty = false := by
    cases hr : pt.rows with
    | nil => exact absurd hr hne
    | cons a l => rfl
  have hfilter : (ts.zip pt.rows).filter (fun p => pandasEq p.1 (Cell.str tn)) = [] := by
    rw [List.filter_eq_nil_iff]
    intro b hb
    obtain ⟨k, hk⟩ := List.mem_iff_getElem?.1 hb
    obtain ⟨hb1, hb2⟩ := getElem?_zip_inv ts pt.rows k b.1 b.2 (by simpa using hk)
    simp [pandasEq_str_false b.1 tn (hnomatch k b.1 b.2 hb1 hb2)]
  simp [get_flight_info, hpt, hempty, hfilter]

/-- Unpacking a successful upload: the feature file was present, the model
returned predictions, the state holds the new tables, and the result loop
succeeded on them. -/
theorem predict_csv_success (env : Env) (st : State) (up : DF)
    (results : List FlightResult) (st' : State)
    (h : predict_csv env st up = (.success results, st')) :
    ∃ ps, st' = ⟨mkPredTable up ps, detect_anomalies (mkPredTable up ps)⟩
      ∧ buildResults (mkPredTable up ps) (detect_anomalies (mkPredTable up ps))
          = .ok results := by
  cases hff : env.featureFile with
  | none => simp [predict_csv, load_feature_names, hff] at h
  | some fs =>
    cases hp : env.predictor (transform_data_for_inference env.fsin env.fcos up fs) with
    | error m => simp [predict_csv, load_feature_names, hff, hp] at h
    | ok ps =>
      cases hb : buildResults (mkPredTable up ps) (detect_anomalies (mkPredTable up ps)) with
      | error m => simp [predict_csv, load_feature_names, hff, hp, hb] at h
      | ok res =>
        simp only [predict_csv, load_feature_names, hff, hp, hb, Prod.mk.injEq,
          Response.success.injEq] at h
        exact ⟨ps, h.2.symm, by rw [hb, h.1]⟩

theorem applyMapping_ne_target (m n : String)
    (hn : n ∉ ["MARKETING_AIRLINE", "OPERATING_AIRLINE", "ORIGIN_AIRPORT_CODE",
      "ORIGIN_STATE", "DEST_AIRPORT_CODE", "DEST_STATE", "DEPARTURE_BLOCK",
      "ARRIVAL_BLOCK"])
    (h : applyMapping m = n) : m = n := by
  unfold applyMapping at h
  split_ifs at h <;> simp_all

theorem getColCore_rename (n : String) (hfix : applyMapping n = n)
    (hinj : ∀ m, applyMapping m = n → m = n) :
    ∀ l, getColCore n (l.map fun c => (applyMapping c.1, c.2)) = getColCore n l := by
  intro l
  induction l with
  | nil => rfl
  | cons hd tl ih =>
    obtain ⟨a, w⟩ := hd
    by_cases h : a = n
    · subst h
      simp [getColCore, hfix]
    · have h2 : ¬ applyMapping a = n := fun hc => h (hinj a hc)
      simp [getColCore, h, h2, ih]

theorem getCol_renameCols (df : DF) (n : String) (hfix : applyMapping n = n)
    (hinj : ∀ m, applyMapping m = n → m = n) :
    (renameCols df).getCol n = df.getCol n :=
  getColCore_rename n hfix hinj df.cols

theorem getCol_imputeNumeric_not_numeric (df : DF) (c : String) (v : List Cell)
    (hv : df.getCol c = some v) (hnum : isNumericCol v = false) :
    (imputeNumeric df).getCol c = some v := by
  have h := getColCore_map_val
    (fun _ w => if isNumericCol w = true then fillNaCol w else w) c df.cols
  have hv' : getColCore c df.cols = some v := hv
  show getColCore c
    (df.cols.map fun p =>
      (p.1, (fun _ w => if isNumericCol w = true then fillNaCol w else w) p.1 p.2)) = _
  rw [h, hv']
  simp [hnum]

theorem getCol_imputeNumeric_exists (df : DF) (c : String) (v : List Cell)
    (hv : df.getCol c = some v) :
    ∃ w, (imputeNumeric df).getCol c = some w
      ∧ ∀ (i : Nat) (q : ℚ), v[i]? = some (Cell.num q) → w[i]? = some (Cell.num q) := by
  cases hn : isNumericCol v with
  | true =>
    refine ⟨fillNaCol v, getCol_imputeNumeric df c v hv hn, ?_⟩
    intro i q hq
    unfold fillNaCol
    cases hm : median (colVals v) with
    | none => simpa using hq
    | some m => simp [List.getElem?_map, hq]
  | false =>
    exact ⟨v, getCol_imputeNumeric_not_numeric df c v hv hn, fun i q hq => hq⟩

theorem addTimeFeatures_self (fsin fcos : ℚ → ℚ) (df : DF) (w : List Cell)
    (h : df.getCol "CRS_DEP_TIME" = some w) :
    (addTimeFeatures fsin fcos df).getCol "DEP_HOUR" = some (w.map (cellMap hourOf))
    ∧ (addTimeFeatures fsin fcos df).getCol "DEP_MINUTE" = some (w.map (cellMap minuteOf))
    ∧ (addTimeFeatures fsin fcos df).getCol "DEP_HOUR_SIN"
        = some ((w.map (cellMap hourOf)).map (cellMap fun x => fsin (x / 24)))
    ∧ (addTimeFeatures fsin fcos df).getCol "DEP_HOUR_COS"
        = some ((w.map (cellMap hourOf)).map (cellMap fun x => fcos (x / 24)))
    ∧ (addTimeFeatures fsin fcos df).getCol "DEP_MIN_SIN"
        = some ((w.map (cellMap minuteOf)).map (cellMap fun x => fsin (x / 60)))
    ∧ (addTimeFeatures fsin fcos df).getCol "DEP_MIN_COS"
        = some ((w.map (cellMap minuteOf)).map (cellMap fun x => fcos (x / 60))) := by
  simp only [addTimeFeatures, h]
  refine ⟨?_, ?_, ?_, ?_, ?_, ?_⟩
  · rw [DF.getCol_setCol_ne _ _ _ _ (by decide), DF.getCol_setCol_ne _ _ _ _ (by decide),
      DF.getCol_setCol_ne _ _ _ _ (by decide), DF.getCol_setCol_ne _ _ _ _ (by decide),
      DF.getCol_setCol_ne _ _ _ _ (by decide), DF.getCol_setCol_self]
  · rw [DF.getCol_setCol_ne _ _ _ _ (by decide), DF.getCol_setCol_ne _ _ _ _ (by decide),
      DF.getCol_setCol_ne _ _ _ _ (by decide), DF.getCol_setCol_ne _ _ _ _ (by decide),
      DF.getCol_setCol_self]
  · rw [DF.getCol_setCol_ne _ _ _ _ (by decide), DF.getCol_setCol_ne _ _ _ _ (by decide),
      DF.getCol_setCol_ne _ _ _ _ (by decide), DF.getCol_setCol_self]
  · rw [DF.getCol_setCol_ne _ _ _ _ (by decide), DF.getCol_setCol_ne _ _ _ _ (by decide),
      DF.getCol_setCol_self]
  · rw [DF.getCol_setCol_ne _ _ _ _ (by decide), DF.getCol_setCol_self]
  · rw [DF.getCol_setCol_self]

theorem addTimeFeatures_stable (fsin fcos : ℚ → ℚ) (df : DF) (X : String)
    (h1 : ¬ "DEP_HOUR" = X) (h2 : ¬ "DEP_MINUTE" = X) (h3 : ¬ "DEP_HOUR_SIN" = X)
    (h4 : ¬ "DEP_HOUR_COS" = X) (h5 : ¬ "DEP_MIN_SIN" = X) (h6 : ¬ "DEP_MIN_COS" = X) :
    (addTimeFeatures fsin fcos df).getCol X = df.getCol X := by
  unfold addTimeFeatures
  cases hc : df.getCol "CRS_DEP_TIME" with
  | none => rfl
  | some v =>
    simp only []
    rw [DF.getCol_setCol_ne _ _ _ _ h6, DF.getCol_setCol_ne _ _ _ _ h5,
      DF.getCol_setCol_ne _ _ _ _ h4, DF.getCol_setCol_ne _ _ _ _ h3,
      DF.getCol_setCol_ne _ _ _ _ h2, DF.getCol_setCol_ne _ _ _ _ h1]

theorem addCyclicFor_self (fsin fcos : ℚ → ℚ) (name : String) (d : ℚ) (df : DF)
    (u : List Cell) (ns nc : String)
    (hns : name ++ "_SIN" = ns) (hnc : name ++ "_COS" = nc) (hne : ¬ ns = nc)
    (h : df.getCol name = some u) :
    (addCyclicFor fsin fcos name d df).getCol ns
        = some (u.map (cellMap fun q => fsin (q / d)))
    ∧ (addCyclicFor fsin fcos name d df).getCol nc
        = some (u.map (cellMap fun q => fcos (q / d))) := by
  subst hns hnc
  simp only [addCyclicFor, h]
  constructor
  · rw [DF.getCol_setCol_ne _ _ _ _ (fun hc => hne hc.symm), DF.getCol_setCol_self]
  · rw [DF.getCol_setCol_self]

theorem addCyclicFor_stable (fsin fcos : ℚ → ℚ) (name : String) (d : ℚ) (df : DF)
    (X : String) (h1 : ¬ name ++ "_SIN" = X) (h2 : ¬ name ++ "_COS" = X) :
    (addCyclicFor fsin fcos name d df).getCol X = df.getCol X := by
  unfold addCyclicFor
  cases hc : df.getCol name with
  | none => rfl
  | some u =>
    simp only []
    rw [DF.getCol_setCol_ne _ _ _ _ h2, DF.getCol_setCol_ne _ _ _ _ h1]

theorem getCol_addCategoricals (df : DF) (X : String)
    (hX : X ∉ CATEGORICAL_COLS_FOR_XGB) :
    (addCategoricals df).getCol X = df.getCol X := by
  unfold addCategoricals
  suffices h : ∀ (l : List String) (d : DF), X ∉ l →
      (l.foldl (fun d c => if c ∈ d.names then d
        else d.setCol c (List.replicate d.nrows Cell.na)) d).getCol X = d.getCol X from
    h _ df hX
  intro l
  induction l with
  | nil => intro d _; rfl
  | cons c rest ih =>
    intro d hX'
    have hc : ¬ c = X := fun h => hX' (by simp [h])
    have hrest : X ∉ rest := fun h => hX' (by simp [h])
    simp only [List.foldl_cons]
    rw [ih _ hrest]
    by_cases hmem : c ∈ d.names
    · simp [hmem]
    · simp [hmem, DF.getCol_setCol_ne _ _ _ _ hc]

theorem airline_prefix_ne (s X : String) (hX : X.data.head? ≠ some 'A') :
    ¬ ("AIRLINE_" ++ s) = X := by
  intro h
  apply hX
  rw [← h, String.data_append]
  rfl

theorem getColCore_erase (n X : String) (h : ¬ X = n) :
    ∀ l : List (String × List Cell),
      getColCore X (l.filter fun c => ¬ c.1 = n) = getColCore X l := by
  intro l
  induction l with
  | nil => rfl
  | cons hd tl ih =>
    obtain ⟨a, w⟩ := hd
    simp only [decide_not] at ih ⊢
    rw [List.filter_cons]
    by_cases han : a = n
    · rw [if_neg (by simp [han])]
      rw [ih]
      have hax : ¬ a = X := by
        intro hc
        exact h (hc ▸ han)
      simp [getColCore, hax]
    · rw [if_pos (by simp [han])]
      by_cases hax : a = X
      · simp [getColCore, hax]
      · simp [getColCore, hax, ih]

theorem getCol_eraseCol_ne (df : DF) (n X : String) (h : ¬ X = n) :
    (df.eraseCol n).getCol X = df.getCol X :=
  getColCore_erase n X h df.cols

theorem getCol_oneHotAirline_stable (df : DF) (X : String)
    (hop : ¬ X = "OPERATING_AIRLINE") (hA : X.data.head? ≠ some 'A') :
    (oneHotAirline df).getCol X = df.getCol X := by
  unfold oneHotAirline
  cases hc : df.getCol "OPERATING_AIRLINE" with
  | none => rfl
  | some v =>
    simp only []
    have hfold : ∀ (l : List String) (d : DF),
        (l.foldl (fun d s => d.setCol ("AIRLINE_" ++ s)
          (v.map fun c => if c = Cell.str s then Cell.num 1 else Cell.num 0)) d).getCol X
          = d.getCol X := by
      intro l
      induction l with
      | nil => intro d; rfl
      | cons s rest ih =>
        intro d
        rw [List.foldl_cons, ih, DF.getCol_setCol_ne _ _ _ _ (airline_prefix_ne s X hA)]
    rw [hfold]
    exact getCol_eraseCol_ne df "OPERATING_AIRLINE" X hop

theorem int8wrap_eq_self (k : ℤ) (h0 : 0 ≤ k) (h1 : k < 128) : int8wrap k = k := by
  unfold int8wrap
  rw [Int.emod_eq_of_lt (by omega) (by omega)]
  omega

theorem ratTrunc_intCast (m : ℤ) (h : 0 ≤ m) : ratTrunc (m : ℚ) = m := by
  unfold ratTrunc
  rw [if_pos (by exact_mod_cast h)]
  exact Int.floor_intCast m

theorem floor_div_100 (n : ℤ) : ⌊(n : ℚ) / 100⌋ = n / 100 := by
  rw [show (100 : ℚ) = ((100 : ℕ) : ℚ) by norm_num]
  simpa using Rat.floor_intCast_div_natCast n 100

theorem hourOf_intCast (n : ℤ) (h0 : 0 ≤ n) (h1 : n < 2400) :
    hourOf (n : ℚ) = ((n / 100 : ℤ) : ℚ) := by
  unfold hourOf
  rw [floor_div_100, int8wrap_eq_self (n / 100) (Int.ediv_nonneg h0 (by norm_num))
    ((Int.ediv_lt_iff_lt_mul (by norm_num)).2 (by omega))]

theorem minuteOf_intCast (n : ℤ) (h0 : 0 ≤ n) :
    minuteOf (n : ℚ) = ((n % 100 : ℤ) : ℚ) := by
  unfold minuteOf
  rw [floor_div_100]
  have hsub : (n : ℚ) - 100 * ((n / 100 : ℤ) : ℚ) = ((n - 100 * (n / 100) : ℤ) : ℚ) := by
    push_cast
    ring
  rw [hsub, show n - 100 * (n / 100) = n % 100 by rw [Int.emod_def],
    ratTrunc_intCast _ (Int.emod_nonneg n (by norm_num)),
    int8wrap_eq_self _ (Int.emod_nonneg n (by norm_num))
      (lt_trans (Int.emod_lt_of_pos n (by norm_num)) (by norm_num))]

/-- The engineered time columns of the pre-alignment frame, expressed over
the imputed `CRS_DEP_TIME` column `w` (which preserves every present
numeric cell of the input column `v`). -/
theorem preAlign_crs (fsin fcos : ℚ → ℚ) (df : DF) (v : List Cell)
    (hv : df.getCol "CRS_DEP_TIME" = some v) :
    ∃ w : List Cell,
      (∀ (i : Nat) (q : ℚ), v[i]? = some (Cell.num q) → w[i]? = some (Cell.num q))
      ∧ (preAlign fsin fcos df).getCol "DEP_HOUR" = some (w.map (cellMap hourOf))
      ∧ (preAlign fsin fcos df).getCol "DEP_MINUTE" = some (w.map (cellMap minuteOf))
      ∧ (preAlign fsin fcos df).getCol "DEP_HOUR_SIN"
          = some ((w.map (cellMap hourOf)).map (cellMap fun x => fsin (x / 24)))
      ∧ (preAlign fsin fcos df).getCol "DEP_HOUR_COS"
          = some ((w.map (cellMap hourOf)).map (cellMap fun x => fcos (x / 24)))
      ∧ (preAlign fsin fcos df).getCol "DEP_MIN_SIN"
          = some ((w.map (cellMap minuteOf)).map (cellMap fun x => fsin (x / 60)))
      ∧ (preAlign fsin fcos df).getCol "DEP_MIN_COS"
          = some ((w.map (cellMap minuteOf)).map (cellMap fun x => fcos (x / 60))) := by
  have hvr : (renameCols df).getCol "CRS_DEP_TIME" = some v := by
    rw [getCol_renameCols df _ (by decide)
      (fun m hm => applyMapping_ne_target m _ (by decide) hm)]
    exact hv
  obtain ⟨w, hw, hwp⟩ := getCol_imputeNumeric_exists (renameCols df) _ v hvr
  obtain ⟨t1, t2, t3, t4, t5, t6⟩ :=
    addTimeFeatures_self fsin fcos (imputeNumeric (renameCols df)) w hw
  refine ⟨w, hwp, ?_, ?_, ?_, ?_, ?_, ?_⟩ <;>
    · unfold preAlign addCyclic
      rw [getCol_oneHotAirline_stable _ _ (by decide) (by decide),
        getCol_addCategoricals _ _ (by decide),
        addCyclicFor_stable _ _ _ _ _ _ (by decide) (by decide),
        addCyclicFor_stable _ _ _ _ _ _ (by decide) (by decide)]
      first
        | exact t1
        | exact t2
        | exact t3
        | exact t4
        | exact t5
        | exact t6

/-- The engineered month columns of the pre-alignment frame. -/
theorem preAlign_month (fsin fcos : ℚ → ℚ) (df : DF) (u : List Cell)
    (hu : df.getCol "MONTH" = some u) :
    ∃ w : List Cell,
      (∀ (i : Nat) (q : ℚ), u[i]? = some (Cell.num q) → w[i]? = some (Cell.num q))
      ∧ (preAlign fsin fcos df).getCol "MONTH_SIN"
          = some (w.map (cellMap fun q => fsin (q / 12)))
      ∧ (preAlign fsin fcos df).getCol "MONTH_COS"
          = some (w.map (cellMap fun q => fcos (q / 12))) := by
  have hur : (renameCols df).getCol "MONTH" = some u := by
    rw [getCol_renameCols df _ (by decide)
      (fun m hm => applyMapping_ne_target m _ (by decide) hm)]
    exact hu
  obtain ⟨w, hw, hwp⟩ := getCol_imputeNumeric_exists (renameCols df) _ u hur
  have hw3 : (addTimeFeatures fsin fcos (imputeNumeric (renameCols df))).getCol "MONTH"
      = some w := by
    rw [addTimeFeatures_stable _ _ _ _ (by decide) (by decide) (by decide) (by decide)
      (by decide) (by decide)]
    exact hw
  obtain ⟨m1, m2⟩ := addCyclicFor_self fsin fcos "MONTH" 12 _ w "MONTH_SIN" "MONTH_COS"
    (by decide) (by decide) (by decide) hw3
  refine ⟨w, hwp, ?_, ?_⟩ <;>
    · unfold preAlign addCyclic
      rw [getCol_oneHotAirline_stable _ _ (by decide) (by decide),
        getCol_addCategoricals _ _ (by decide),
        addCyclicFor_stable _ _ _ _ _ _ (by decide) (by decide)]
      first
        | exact m1
        | exact m2

/-- The engineered day-of-week columns of the pre-alignment frame. -/
theorem preAlign_dow (fsin fcos : ℚ → ℚ) (df : DF) (u : List Cell)
    (hu : df.getCol "DAY_OF_WEEK" = some u) :
    ∃ w : List Cell,
      (∀ (i : Nat) (q : ℚ), u[i]? = some (Cell.num q) → w[i]? = some (Cell.num q))
      ∧ (preAlign fsin fcos df).getCol "DAY_OF_WEEK_SIN"
          = some (w.map (cellMap fun q => fsin (q / 7)))
      ∧ (preAlign fsin fcos df).getCol "DAY_OF_WEEK_COS"
          = some (w.map (cellMap fun q => fcos (q / 7))) := by
  have hur : (renameCols df).getCol "DAY_OF_WEEK" = some u := by
    rw [getCol_renameCols df _ (by decide)
      (fun m hm => applyMapping_ne_target m _ (by decide) hm)]
    exact hu
  obtain ⟨w, hw, hwp⟩ := getCol_imputeNumeric_exists (renameCols df) _ u hur
  have hw3 : (addTimeFeatures fsin fcos (imputeNumeric (renameCols df))).getCol "DAY_OF_WEEK"
      = some w := by
    rw [addTimeFeatures_stable _ _ _ _ (by decide) (by decide) (by decide) (by decide)
      (by decide) (by decide)]
    exact hw
  have hw4 : (addCyclicFor fsin fcos "MONTH" 12
      (addTimeFeatures fsin fcos (imputeNumeric (renameCols df)))).getCol "DAY_OF_WEEK"
      = some w := by
    rw [addCyclicFor_stable _ _ _ _ _ _ (by decide) (by decide)]
    exact hw3
  obtain ⟨d1, d2⟩ := addCyclicFor_self fsin fcos "DAY_OF_WEEK" 7 _ w
    "DAY_OF_WEEK_SIN" "DAY_OF_WEEK_COS" (by decide) (by decide) (by decide) hw4
  refine ⟨w, hwp, ?_, ?_⟩ <;>
    · unfold preAlign addCyclic
      rw [getCol_oneHotAirline_stable _ _ (by decide) (by decide),
        getCol_addCategoricals _ _ (by decide)]
      first
        | exact d1
        | exact d2

/-- A feature present after the engineering stages is copied verbatim by
the final projection when it is among the expected features. -/
theorem transform_getCol_present (fsin fcos : ℚ → ℚ) (df : DF) (F : List String)
    (X : String) (L : List Cell) (hX : X ∈ F)
    (hL : (preAlign fsin fcos df).getCol X = some L) :
    (transform_data_for_inference fsin fcos df F).getCol X = some L := by
  unfold transform_data_for_inference alignFeatures
  rw [align_getCol _ F _ X (Or.inl hX)]
  simp [colOrZero, hL]

-- -----------------------------
-- Claim theorems
-- -----------------------------

/-- Claim C1: the risk classification is total over the (rational-valued)
inputs and classifies the absolute value with the fixed non-overlapping
thresholds 15 and 60: below 15 is LOW, between 15 and 60 inclusive is
MEDIUM, above 60 is HIGH; in particular 14.9 is LOW, 15 and 60 are MEDIUM,
60.1 and -70 are HIGH. -/
theorem C1_risk_label_classification :
    (∀ v : ℚ,
      (|v| < 15 → risk_label v = "LOW")
      ∧ (15 ≤ |v| ∧ |v| ≤ 60 → risk_label v = "MEDIUM")
      ∧ (60 < |v| → risk_label v = "HIGH"))
    ∧ risk_label (149/10) = "LOW"
    ∧ risk_label 15 = "MEDIUM"
    ∧ risk_label 60 = "MEDIUM"
    ∧ risk_label (601/10) = "HIGH"
    ∧ risk_label (-70) = "HIGH" := by
  refine ⟨fun v => ⟨fun h => ?_, fun h => ?_, fun h => ?_⟩, ?_, ?_, ?_, ?_, ?_⟩
  · simp [risk_label, h]
  · simp [risk_label, not_lt.2 h.1, h.2]
  · have h15 : ¬ |v| < 15 := not_lt.2 (le_trans (by norm_num) (le_of_lt h))
    simp [risk_label, h15, not_le.2 h]
  all_goals norm_num [risk_label, abs_of_nonneg, abs_of_nonpos]

/-- Witness for C1 at the concrete input -70. -/
theorem C1_witness : risk_label (-70) = "HIGH" :=
  ((C1_risk_label_classification.1 (-70)).2.2 (by norm_num))

/-- Claim C3: each cause's high threshold is evaluated before its low one
and suppresses it (if/elif), with thresholds carrier more than 15 / more
than 5, weather more than 10 / more than 5, security more than 5 / more
than 2; the high tier contributes the first five tips of the cause's list,
the low tier exactly the first tip, below both the cause contributes
nothing, and the output is deterministic in the prediction row. -/
theorem C3_suggestion_tiers :
    (∀ r₁ r₂ : RowData, r₁ = r₂ → optimize_suggestions r₁ = optimize_suggestions r₂)
    ∧ (∀ r : RowData, 15 < r.carrier →
        optimize_suggestions r
          = carrier_suggestions.take 5 ++ optimize_suggestions {r with carrier := 0}
        ∧ optimize_suggestions r
          ≠ [carrier_suggestions.getD 0 ""] ++ optimize_suggestions {r with carrier := 0})
    ∧ (∀ r : RowData, 5 < r.carrier → r.carrier ≤ 15 →
        optimize_suggestions r
          = [carrier_suggestions.getD 0 ""] ++ optimize_suggestions {r with carrier := 0})
    ∧ (∀ r : RowData, r.carrier ≤ 5 →
        optimize_suggestions r = optimize_suggestions {r with carrier := 0})
    ∧ (∀ r : RowData, 10 < r.weather →
        optimize_suggestions r
          = carrierSection r.carrier ++ weather_suggestions.take 5
            ++ securitySection r.security ++ totalSection r.total)
    ∧ (∀ r : RowData, 5 < r.weather → r.weather ≤ 10 →
        optimize_suggestions r
          = carrierSection r.carrier ++ [weather_suggestions.getD 0 ""]
            ++ securitySection r.security ++ totalSection r.total)
    ∧ (∀ r : RowData, r.weather ≤ 5 →
        optimize_suggestions r
          = carrierSection r.carrier ++ securitySection r.security ++ totalSection r.total)
    ∧ (∀ r : RowData, 5 < r.security →
        optimize_suggestions r
          = carrierSection r.carrier ++ weatherSection r.weather
            ++ security_suggestions.take 5 ++ totalSection r.total)
    ∧ (∀ r : RowData, 2 < r.security → r.security ≤ 5 →
        optimize_suggestions r
          = carrierSection r.carrier ++ weatherSection r.weather
            ++ [security_suggestions.getD 0 ""] ++ totalSection r.total)
    ∧ (∀ r : RowData, r.security ≤ 2 →
        optimize_suggestions r
          = carrierSection r.carrier ++ weatherSection r.weather ++ totalSection r.total) := by
  have h0c : carrierSection 0 = [] := by norm_num [carrierSection]
  have h0w : weatherSection 0 = [] := by norm_num [weatherSection]
  have h0s : securitySection 0 = [] := by norm_num [securitySection]
  refine ⟨fun r₁ r₂ h => by rw [h], fun r h => ?_, fun r h h' => ?_, fun r h => ?_,
    fun r h => ?_, fun r h h' => ?_, fun r h => ?_, fun r h => ?_, fun r h h' => ?_,
    fun r h => ?_⟩
  · have heq : optimize_suggestions r
        = carrier_suggestions.take 5 ++ optimize_suggestions {r with carrier := 0} := by
      norm_num [optimize_suggestions, carrierSection, h]
    refine ⟨heq, fun hcontra => ?_⟩
    rw [heq] at hcontra
    have hlen := congrArg List.length hcontra
    simp [carrier_suggestions] at hlen
    omega
  · norm_num [optimize_suggestions, carrierSection, h, not_lt.2 h']
  · norm_num [optimize_suggestions, carrierSection, not_lt.2 h,
      not_lt.2 (le_trans h (by norm_num : (5:ℚ) ≤ 15))]
  · simp [optimize_suggestions, weatherSection, h]
  · simp [optimize_suggestions, weatherSection, not_lt.2 h', h]
  · simp [optimize_suggestions, weatherSection, not_lt.2 h,
      not_lt.2 (le_trans h (by norm_num : (5:ℚ) ≤ 10))]
  · simp [optimize_suggestions, securitySection, h]
  · simp [optimize_suggestions, securitySection, not_lt.2 h', h]
  · simp [optimize_suggestions, securitySection, not_lt.2 h,
      not_lt.2 (le_trans h (by norm_num : (2:ℚ) ≤ 5))]

/-- Witness for C3 at the carrier values 16, 6 and 4 of the claim. -/
theorem C3_witness :
    optimize_suggestions ⟨16, 0, 0, 0⟩
        = carrier_suggestions.take 5 ++ optimize_suggestions ⟨0, 0, 0, 0⟩
      ∧ optimize_suggestions ⟨16, 0, 0, 0⟩
        ≠ [carrier_suggestions.getD 0 ""] ++ optimize_suggestions ⟨0, 0, 0, 0⟩
      ∧ optimize_suggestions ⟨6, 0, 0, 0⟩
        = [carrier_suggestions.getD 0 ""] ++ optimize_suggestions ⟨0, 0, 0, 0⟩
      ∧ optimize_suggestions ⟨4, 0, 0, 0⟩ = optimize_suggestions ⟨0, 0, 0, 0⟩ :=
  ⟨(C3_suggestion_tiers.2.1 ⟨16, 0, 0, 0⟩ (by norm_num)).1,
   (C3_suggestion_tiers.2.1 ⟨16, 0, 0, 0⟩ (by norm_num)).2,
   C3_suggestion_tiers.2.2.1 ⟨6, 0, 0, 0⟩ (by norm_num) (by norm_num),
   C3_suggestion_tiers.2.2.2.1 ⟨4, 0, 0, 0⟩ (by norm_num)⟩

/-- Claim C4: the fixed total-delay advisory string is in the suggestion
list exactly when the row's total predicted delay exceeds 20, whatever the
per-cause rules contributed. -/
theorem C4_total_advisory_iff (r : RowData) :
    totalDelayAdvisory ∈ optimize_suggestions r ↔ 20 < r.total := by
  have hc : totalDelayAdvisory ∉ carrierSection r.carrier := by
    unfold carrierSection
    split_ifs <;> decide
  have hw : totalDelayAdvisory ∉ weatherSection r.weather := by
    unfold weatherSection
    split_ifs <;> decide
  have hs : totalDelayAdvisory ∉ securitySection r.security := by
    unfold securitySection
    split_ifs <;> decide
  by_cases ht : 20 < r.total <;>
    simp [optimize_suggestions, totalSection, ht, hc, hw, hs]

/-- Claim C7: during alignment every missing value of a numeric column is
replaced by that column's own median over the current batch, non-missing
values are left alone. -/
theorem C7_median_imputation (df : DF) (c : String) (v : List Cell) (m : ℚ)
    (hv : df.getCol c = some v) (hnum : isNumericCol v = true)
    (hmed : median (colVals v) = some m) :
    ∃ w, (imputeNumeric df).getCol c = some w
      ∧ (∀ (i : Nat) (q : ℚ), v[i]? = some (Cell.num q) → w[i]? = some (Cell.num q))
      ∧ (∀ i : Nat, v[i]? = some Cell.na → w[i]? = some (Cell.num m)) := by
  refine ⟨fillNaCol v, getCol_imputeNumeric df c v hv hnum, ?_, ?_⟩
  · intro i q hq
    simp [fillNaCol, hmed, List.getElem?_map, hq]
  · intro i hna
    simp [fillNaCol, hmed, List.getElem?_map, hna]

/-- Witness for C7: the same record (a missing value followed by the value
10) is imputed to 10 in a two-row batch and to 20 in a four-row batch, so
imputation is batch-dependent. -/
theorem C7_witness :
    (∃ w, (imputeNumeric ⟨2, [("D", [Cell.na, Cell.num 10])]⟩).getCol "D" = some w
      ∧ w[0]? = some (Cell.num 10))
    ∧ (∃ w, (imputeNumeric
          ⟨4, [("D", [Cell.na, Cell.num 10, Cell.num 20, Cell.num 30])]⟩).getCol "D" = some w
      ∧ w[0]? = some (Cell.num 20)) := by
  constructor
  · obtain ⟨w, hw, _, hna⟩ := C7_median_imputation ⟨2, [("D", [Cell.na, Cell.num 10])]⟩
      "D" [Cell.na, Cell.num 10] 10 rfl (by decide) (by decide)
    exact ⟨w, hw, hna 0 rfl⟩
  · obtain ⟨w, hw, _, hna⟩ := C7_median_imputation
      ⟨4, [("D", [Cell.na, Cell.num 10, Cell.num 20, Cell.num 30])]⟩
      "D" [Cell.na, Cell.num 10, Cell.num 20, Cell.num 30] 20 rfl (by decide) (by decide)
    exact ⟨w, hw, hna 0 rfl⟩

/-- Claim C2: for every expected-feature list F and every input, the
aligned matrix has exactly the names of F as columns (in the order of F
when F is duplicate-free), and every feature of F absent from the renamed,
engineered, one-hot-expanded input is the constant-0 column over all
`df.nrows` rows. -/
theorem C2_feature_alignment (fsin fcos : ℚ → ℚ) (df : DF) (F : List String) :
    (∀ n, n ∈ (transform_data_for_inference fsin fcos df F).names ↔ n ∈ F)
    ∧ (F.Nodup → (transform_data_for_inference fsin fcos df F).names = F)
    ∧ (∀ f ∈ F, f ∉ (preAlign fsin fcos df).names →
        (transform_data_for_inference fsin fcos df F).getCol f
          = some (List.replicate df.nrows (Cell.num 0))) := by
  refine ⟨fun n => ?_, fun hnd => ?_, fun f hf habs => ?_⟩
  · unfold transform_data_for_inference alignFeatures
    rw [align_mem_names]
    simp [DF.names]
  · unfold transform_data_for_inference alignFeatures
    rw [align_names_nodup _ F _ hnd (fun f _ => by simp [DF.names])]
    simp [DF.names]
  · unfold transform_data_for_inference alignFeatures
    rw [align_getCol _ F _ f (Or.inl hf)]
    have hnone : (preAlign fsin fcos df).getCol f = none :=
      (DF.getCol_eq_none_iff _ f).2 habs
    rw [colOrZero, hnone, nrows_preAlign]

/-- Witness for C2: aligning a one-row frame having only column B onto the
feature list [A, B] yields exactly the columns [A, B], with A constantly 0. -/
theorem C2_witness :
    (transform_data_for_inference id id ⟨1, [("B", [Cell.num 7])]⟩ ["A", "B"]).names = ["A", "B"]
    ∧ (transform_data_for_inference id id ⟨1, [("B", [Cell.num 7])]⟩ ["A", "B"]).getCol "A"
        = some [Cell.num 0] := by
  constructor
  · exact (C2_feature_alignment id id ⟨1, [("B", [Cell.num 7])]⟩ ["A", "B"]).2.1 (by decide)
  · have h := (C2_feature_alignment id id ⟨1, [("B", [Cell.num 7])]⟩ ["A", "B"]).2.2
      "A" (by decide) (by decide)
    simpa using h

/-- Counterexample to claim C6: with the feature-name file absent, the
upload endpoint does NOT let the resource-not-found condition propagate; it
returns the ordinary error envelope carrying the exception's message,
because `load_feature_names()` is called inside the `try` block and
`except Exception` catches `FileNotFoundError`. -/
theorem C6_counterexample :
    (predict_csv ⟨none, fun _ => .ok [], id, id⟩ initialState
      ⟨1, [("CRS_DEP_TIME", [Cell.num 830])]⟩).1
      = Response.errorEnvelope "Feature names file feature_names.txt not found." := rfl

/-- Claim C6 as amended: every exception during upload processing,
including the missing feature-name-list file, is caught at the endpoint
boundary and converted into the error envelope carrying the exception's
message; nothing propagates. -/
theorem C6_amended_error_envelope :
    (∀ (env : Env) (st : State) (up : DF), env.featureFile = none →
      (predict_csv env st up).1
        = Response.errorEnvelope "Feature names file feature_names.txt not found.")
    ∧ (∀ (env : Env) (st : State) (up : DF) (fs : List String) (m : String),
        env.featureFile = some fs →
        env.predictor (transform_data_for_inference env.fsin env.fcos up fs)
          = .error m →
        (predict_csv env st up).1 = Response.errorEnvelope m) := by
  constructor
  · intro env st up h
    simp [predict_csv, load_feature_names, h]
  · intro env st up fs m hf hp
    simp [predict_csv, load_feature_names, hf, hp]

/-- Witness for C6 (amended): a missing feature file and a failing model
both surface as the error envelope. -/
theorem C6_witness :
    (predict_csv ⟨none, fun _ => .ok [], id, id⟩ initialState ⟨0, []⟩).1
      = Response.errorEnvelope "Feature names file feature_names.txt not found."
    ∧ (predict_csv ⟨some ["A"], fun _ => .error "model failure", id, id⟩ initialState ⟨0, []⟩).1
      = Response.errorEnvelope "model failure" :=
  ⟨C6_amended_error_envelope.1 ⟨none, fun _ => .ok [], id, id⟩ initialState ⟨0, []⟩ rfl,
   C6_amended_error_envelope.2 ⟨some ["A"], fun _ => .error "model failure", id, id⟩
     initialState ⟨0, []⟩ ["A"] "model failure" rfl rfl⟩

/-- Claim C9: an uploaded CSV without a TAIL_NUMBER column (and with at
least one prediction row, the model producing one prediction per row)
makes the result loop read the missing TAIL_NUMBER column of the anomaly
frame; the KeyError is caught by the broad handler, so the endpoint
returns an error envelope rather than a success envelope keyed by
Flight_{i}. -/
theorem C9_missing_tail_error (env : Env) (st : State) (up : DF)
    (hno : "TAIL_NUMBER" ∉ up.names)
    (hpred : ∀ fs ps, env.featureFile = some fs →
      env.predictor (transform_data_for_inference env.fsin env.fcos up fs) = .ok ps →
      ps ≠ []) :
    ∃ m, (predict_csv env st up).1 = Response.errorEnvelope m := by
  cases hff : env.featureFile with
  | none =>
    exact ⟨"Feature names file feature_names.txt not found.",
      by simp [predict_csv, load_feature_names, hff]⟩
  | some fs =>
    cases hp : env.predictor (transform_data_for_inference env.fsin env.fcos up fs) with
    | error m => exact ⟨m, by simp [predict_csv, load_feature_names, hff, hp]⟩
    | ok ps =>
      have hne : ps ≠ [] := hpred fs ps hff hp
      have htails : up.getCol "TAIL_NUMBER" = none := (DF.getCol_eq_none_iff up _).2 hno
      cases ps with
      | nil => exact absurd rfl hne
      | cons p rest =>
        exact ⟨"KeyError: TAIL_NUMBER",
          by simp [predict_csv, load_feature_names, hff, hp, mkPredTable, htails,
            detect_anomalies, buildResults, buildGo]⟩

/-- Witness for C9: one row, no TAIL_NUMBER column, a model returning one
prediction: the endpoint answers with an error envelope. -/
theorem C9_witness :
    ∃ m, (predict_csv ⟨some ["A"], fun _ => .ok [(1, 1, 1)], id, id⟩ initialState
      ⟨1, [("X", [Cell.num 5])]⟩).1 = Response.errorEnvelope m := by
  apply C9_missing_tail_error
  · decide
  · intro fs ps hfs hps
    simp only [Except.ok.injEq] at hps
    subst hps
    simp

/-- Claim C10: when two or more rows of the last bulk result share the
same tail identifier, looking that identifier up returns the result built
from the first matching row in upload order; the later duplicate is
ignored. -/
theorem C10_duplicate_tail_first_match (ts : List Cell) (rows : List RowData)
    (tn : String) (i j : Nat) (ri rj : RowData) (hij : i < j)
    (hi : (ts.zip rows)[i]? = some (Cell.str tn, ri))
    (hj : (ts.zip rows)[j]? = some (Cell.str tn, rj))
    (hfirst : ∀ k, k < i → ∀ p : Cell × RowData,
      (ts.zip rows)[k]? = some p → ¬ p.1 = Cell.str tn) :
    get_flight_info ⟨⟨some ts, rows⟩, detect_anomalies ⟨some ts, rows⟩⟩ tn
      = .found (mkEntry (Cell.str tn) ri (Cell.str tn, riskOf ri)) := by
  obtain ⟨hts, hrows⟩ := getElem?_zip_inv ts rows i _ _ hi
  refine lookup_state_found ⟨some ts, rows⟩ ts tn i ri rfl hts hrows ?_
  intro k hk c hc hceq
  have hirows : i < rows.length := (List.getElem?_eq_some.1 hrows).1
  have hklen : k < rows.length := lt_trans hk hirows
  have hrk : rows[k]? = some (rows[k]) := List.getElem?_eq_getElem hklen
  exact hfirst k hk (c, rows[k]) (getElem?_zip_of ts rows k c (rows[k]) hc hrk) hceq

/-- Witness for C10: two rows both tagged N1; the lookup returns the entry
of the first one. -/
theorem C10_witness :
    get_flight_info
      ⟨⟨some [Cell.str "N1", Cell.str "N1"], [⟨20, 3, 4, 27⟩, ⟨1, 1, 1, 3⟩]⟩,
        detect_anomalies ⟨some [Cell.str "N1", Cell.str "N1"], [⟨20, 3, 4, 27⟩, ⟨1, 1, 1, 3⟩]⟩⟩
      "N1"
      = .found (mkEntry (Cell.str "N1") ⟨20, 3, 4, 27⟩ (Cell.str "N1", riskOf ⟨20, 3, 4, 27⟩)) := by
  refine C10_duplicate_tail_first_match [Cell.str "N1", Cell.str "N1"]
    [⟨20, 3, 4, 27⟩, ⟨1, 1, 1, 3⟩] "N1" 0 1 ⟨20, 3, 4, 27⟩ ⟨1, 1, 1, 3⟩
    (by omega) rfl rfl ?_
  intro k hk p hp
  exact absurd hk (Nat.not_lt_zero k)

/-- Counterexample to claim C5 as stated: uploading a CSV without a
TAIL_NUMBER column fails with an error envelope, but the exception is
raised only after the globals were reassigned; the prediction store is now
nonempty and without tail identifiers, and a lookup performed before any
successful upload raises an uncaught KeyError instead of returning the
"no predictions" message object. -/
theorem C5_counterexample :
    (predict_csv ⟨some ["A"], fun _ => .ok [(1, 2, 3)], id, id⟩ initialState
        ⟨1, [("X", [Cell.num 5])]⟩).1
      = Response.errorEnvelope "KeyError: TAIL_NUMBER"
    ∧ get_flight_info
        (predict_csv ⟨some ["A"], fun _ => .ok [(1, 2, 3)], id, id⟩ initialState
          ⟨1, [("X", [Cell.num 5])]⟩).2 "N1"
      = .fault "KeyError: TAIL_NUMBER" := by
  constructor <;> rfl

/-- Claim C5 as amended: provided every upload attempt carried a
TAIL_NUMBER column (so the store, when nonempty, has tail identifiers),
the lookup never faults: on the initial empty store it returns the
"no predictions" message; after a successful upload with at least one row,
an identifier matching no result row yields the "not found" message; and an
identifier of a result row yields exactly the first matching bulk result. -/
theorem C5_lookup_contract :
    (∀ tn, get_flight_info initialState tn
        = .message "No predictions available. Please upload a CSV first.")
    ∧ (∀ (env : Env) (st : State) (up : DF) (results : List FlightResult)
        (st' : State) (tn : String),
        predict_csv env st up = (.success results, st') → results ≠ [] →
        (∀ r ∈ results, ¬ r.tail = Cell.str tn) →
        get_flight_info st' tn = .message "Tail number not found.")
    ∧ (∀ (env : Env) (st : State) (up : DF) (results : List FlightResult)
        (st' : State) (tn : String) (i : Nat) (r : FlightResult),
        predict_csv env st up = (.success results, st') →
        results[i]? = some r → r.tail = Cell.str tn →
        (∀ k, k < i → ∀ r2, results[k]? = some r2 → ¬ r2.tail = Cell.str tn) →
        get_flight_info st' tn = .found r) := by
  refine ⟨fun tn => rfl, ?_, ?_⟩
  · intro env st up results st' tn hpc hne hno
    obtain ⟨ps, hst, hb⟩ := predict_csv_success env st up results st' hpc
    subst hst
    cases htails : up.getCol "TAIL_NUMBER" with
    | none =>
      have hPT : (mkPredTable up ps).tails = none := htails
      have h0 : (mkPredTable up ps).rows = [] :=
        buildGo_ok_none_tails (detect_anomalies (mkPredTable up ps))
          (by simp [detect_anomalies, hPT]) (mkPredTable up ps).tails 0 _ results hb
      have hres0 : results = [] := by
        have hb' := hb
        unfold buildResults at hb'
        rw [h0] at hb'
        simp only [buildGo, Except.ok.injEq] at hb'
        exact hb'.symm
      exact absurd hres0 hne
    | some ts =>
      have hPT : (mkPredTable up ps).tails = some ts := htails
      have hred : buildResults (mkPredTable up ps) (detect_anomalies (mkPredTable up ps))
          = buildGo (some ts) ⟨some ts, (mkPredTable up ps).rows.map riskOf⟩ 0
              (mkPredTable up ps).rows := by
        unfold buildResults detect_anomalies
        rw [hPT]
      rw [hred] at hb
      obtain ⟨hlen, hspec⟩ :=
        buildGo_ok_spec ts ((mkPredTable up ps).rows.map riskOf)
          (mkPredTable up ps).rows (some ts) 0 results hb
      refine lookup_state_not_found (mkPredTable up ps) ts tn hPT ?_ ?_
      · intro h0
        rw [h0] at hlen
        exact hne (List.length_eq_zero.1 (by simpa using hlen))
      · intro k c r hc hr hceq
        obtain ⟨p, hp, hrk⟩ := hspec k r hr
        rw [Nat.zero_add] at hrk
        have hmem : mkEntry (tailAt (some ts) k) r p ∈ results :=
          List.mem_iff_getElem?.2 ⟨k, hrk⟩
        have htk : tailAt (some ts) k = c := by
          show ts[k]?.getD Cell.na = c
          rw [hc]
          rfl
        exact hno _ hmem (by simpa [mkEntry, htk] using hceq)
  · intro env st up results st' tn i r hpc hir hrtail hprefix
    obtain ⟨ps, hst, hb⟩ := predict_csv_success env st up results st' hpc
    subst hst
    cases htails : up.getCol "TAIL_NUMBER" with
    | none =>
      have hPT : (mkPredTable up ps).tails = none := htails
      have h0 : (mkPredTable up ps).rows = [] :=
        buildGo_ok_none_tails (detect_anomalies (mkPredTable up ps))
          (by simp [detect_anomalies, hPT]) (mkPredTable up ps).tails 0 _ results hb
      have hres0 : results = [] := by
        have hb' := hb
        unfold buildResults at hb'
        rw [h0] at hb'
        simp only [buildGo, Except.ok.injEq] at hb'
        exact hb'.symm
      rw [hres0] at hir
      simp at hir
    | some ts =>
      have hPT : (mkPredTable up ps).tails = some ts := htails
      have hred : buildResults (mkPredTable up ps) (detect_anomalies (mkPredTable up ps))
          = buildGo (some ts) ⟨some ts, (mkPredTable up ps).rows.map riskOf⟩ 0
              (mkPredTable up ps).rows := by
        unfold buildResults detect_anomalies
        rw [hPT]
      rw [hred] at hb
      obtain ⟨hlen, hspec⟩ :=
        buildGo_ok_spec ts ((mkPredTable up ps).rows.map riskOf)
          (mkPredTable up ps).rows (some ts) 0 results hb
      have hilen : i < results.length := (List.getElem?_eq_some.1 hir).1
      have hirows : i < (mkPredTable up ps).rows.length := by rw [← hlen]; exact hilen
      have hri : (mkPredTable up ps).rows[i]? = some ((mkPredTable up ps).rows[i]) :=
        List.getElem?_eq_getElem hirows
      obtain ⟨p, hp, hrk⟩ := hspec i _ hri
      rw [Nat.zero_add] at hp hrk
      have hreq : r = mkEntry (tailAt (some ts) i) ((mkPredTable up ps).rows[i]) p := by
        rw [hrk] at hir
        exact (Option.some.inj hir).symm
      have htail_i : tailAt (some ts) i = Cell.str tn := by
        rw [hreq] at hrtail
        exact hrtail
      have hts_i : ts[i]? = some (Cell.str tn) := tailAt_eq_str ts i tn htail_i
      have hfirst : ∀ k, k < i → ∀ c, ts[k]? = some c → ¬ c = Cell.str tn := by
        intro k hk c hc hceq
        have hklen : k < (mkPredTable up ps).rows.length := lt_trans hk hirows
        have hrkk : (mkPredTable up ps).rows[k]? = some ((mkPredTable up ps).rows[k]) :=
          List.getElem?_eq_getElem hklen
        obtain ⟨pk, hpk, hrk2⟩ := hspec k _ hrkk
        rw [Nat.zero_add] at hrk2
        have htk : tailAt (some ts) k = c := by
          show ts[k]?.getD Cell.na = c
          rw [hc]
          rfl
        exact hprefix k hk _ hrk2 (by simpa [mkEntry, htk] using hceq)
      have hanom := anomFirst_of_first ts ((mkPredTable up ps).rows.map riskOf) tn i
        (riskOf ((mkPredTable up ps).rows[i])) hts_i
        (by rw [List.getElem?_map, hri]; rfl) hfirst
      rw [htail_i] at hp
      have hpe : p = (Cell.str tn, riskOf ((mkPredTable up ps).rows[i])) :=
        Option.some.inj (hp.symm.trans hanom)
      rw [hreq, htail_i, hpe]
      exact lookup_state_found (mkPredTable up ps) ts tn i _ hPT hts_i hri hfirst

/-- Witness for C5 (amended): after a concrete one-row upload tagged N100,
looking N100 up returns exactly the bulk result entry. -/
theorem C5_witness :
    get_flight_info
      (predict_csv ⟨some ["A"], fun _ => .ok [(20, 3, 4)], id, id⟩ initialState
        ⟨1, [("TAIL_NUMBER", [Cell.str "N100"])]⟩).2 "N100"
      = .found (mkEntry (Cell.str "N100") ⟨20, 3, 4, 20 + 3 + 4⟩
          (Cell.str "N100", riskOf ⟨20, 3, 4, 20 + 3 + 4⟩)) := by
  refine C5_lookup_contract.2.2 ⟨some ["A"], fun _ => .ok [(20, 3, 4)], id, id⟩
    initialState ⟨1, [("TAIL_NUMBER", [Cell.str "N100"])]⟩
    [mkEntry (Cell.str "N100") ⟨20, 3, 4, 20 + 3 + 4⟩
      (Cell.str "N100", riskOf ⟨20, 3, 4, 20 + 3 + 4⟩)]
    (predict_csv ⟨some ["A"], fun _ => .ok [(20, 3, 4)], id, id⟩ initialState
      ⟨1, [("TAIL_NUMBER", [Cell.str "N100"])]⟩).2
    "N100" 0
    (mkEntry (Cell.str "N100") ⟨20, 3, 4, 20 + 3 + 4⟩
      (Cell.str "N100", riskOf ⟨20, 3, 4, 20 + 3 + 4⟩))
    rfl rfl rfl ?_
  intro k hk r2 hr2
  exact absurd hk (Nat.not_lt_zero k)

/-- Claim C8: with a scheduled-departure-time column present, the aligner
derives the hour as the time integer-divided by 100 and the minute as the
time modulo 100, and emits each as a sine/cosine pair over periods 24 and
60 (the sine/cosine of x over period d appearing as fsin (x / d) /
fcos (x / d)); a month or day-of-week column is likewise encoded over
periods 12 and 7. -/
theorem C8_cyclical_time_encoding (fsin fcos : ℚ → ℚ) (df : DF) (F : List String) :
    (∀ (v : List Cell) (i : Nat) (n : ℤ),
      df.getCol "CRS_DEP_TIME" = some v → v[i]? = some (Cell.num (n : ℚ)) →
      0 ≤ n → n < 2400 →
      ("DEP_HOUR" ∈ F → ∃ L, (transform_data_for_inference fsin fcos df F).getCol
          "DEP_HOUR" = some L ∧ L[i]? = some (Cell.num ((n / 100 : ℤ) : ℚ)))
      ∧ ("DEP_MINUTE" ∈ F → ∃ L, (transform_data_for_inference fsin fcos df F).getCol
          "DEP_MINUTE" = some L ∧ L[i]? = some (Cell.num ((n % 100 : ℤ) : ℚ)))
      ∧ ("DEP_HOUR_SIN" ∈ F → ∃ L, (transform_data_for_inference fsin fcos df F).getCol
          "DEP_HOUR_SIN" = some L
          ∧ L[i]? = some (Cell.num (fsin (((n / 100 : ℤ) : ℚ) / 24))))
      ∧ ("DEP_HOUR_COS" ∈ F → ∃ L, (transform_data_for_inference fsin fcos df F).getCol
          "DEP_HOUR_COS" = some L
          ∧ L[i]? = some (Cell.num (fcos (((n / 100 : ℤ) : ℚ) / 24))))
      ∧ ("DEP_MIN_SIN" ∈ F → ∃ L, (transform_data_for_inference fsin fcos df F).getCol
          "DEP_MIN_SIN" = some L
          ∧ L[i]? = some (Cell.num (fsin (((n % 100 : ℤ) : ℚ) / 60))))
      ∧ ("DEP_MIN_COS" ∈ F → ∃ L, (transform_data_for_inference fsin fcos df F).getCol
          "DEP_MIN_COS" = some L
          ∧ L[i]? = some (Cell.num (fcos (((n % 100 : ℤ) : ℚ) / 60)))))
    ∧ (∀ (u : List Cell) (i : Nat) (q : ℚ),
      df.getCol "MONTH" = some u → u[i]? = some (Cell.num q) →
      ("MONTH_SIN" ∈ F → ∃ L, (transform_data_for_inference fsin fcos df F).getCol
          "MONTH_SIN" = some L ∧ L[i]? = some (Cell.num (fsin (q / 12))))
      ∧ ("MONTH_COS" ∈ F → ∃ L, (transform_data_for_inference fsin fcos df F).getCol
          "MONTH_COS" = some L ∧ L[i]? = some (Cell.num (fcos (q / 12)))))
    ∧ (∀ (u : List Cell) (i : Nat) (q : ℚ),
      df.getCol "DAY_OF_WEEK" = some u → u[i]? = some (Cell.num q) →
      ("DAY_OF_WEEK_SIN" ∈ F → ∃ L, (transform_data_for_inference fsin fcos df F).getCol
          "DAY_OF_WEEK_SIN" = some L ∧ L[i]? = some (Cell.num (fsin (q / 7))))
      ∧ ("DAY_OF_WEEK_COS" ∈ F → ∃ L, (transform_data_for_inference fsin fcos df F).getCol
          "DAY_OF_WEEK_COS" = some L ∧ L[i]? = some (Cell.num (fcos (q / 7))))) := by
  refine ⟨?_, ?_, ?_⟩
  · intro v i n hv hvi h0 h1
    obtain ⟨w, hwp, hH, hM, hHS, hHC, hMS, hMC⟩ := preAlign_crs fsin fcos df v hv
    have hwi : w[i]? = some (Cell.num (n : ℚ)) := hwp i _ hvi
    have hhour : (w.map (cellMap hourOf))[i]? = some (Cell.num ((n / 100 : ℤ) : ℚ)) := by
      rw [List.getElem?_map, hwi]
      simp [cellMap, hourOf_intCast n h0 h1]
    have hmin : (w.map (cellMap minuteOf))[i]? = some (Cell.num ((n % 100 : ℤ) : ℚ)) := by
      rw [List.getElem?_map, hwi]
      simp [cellMap, minuteOf_intCast n h0]
    refine ⟨fun hF => ⟨_, transform_getCol_present fsin fcos df F _ _ hF hH, hhour⟩,
      fun hF => ⟨_, transform_getCol_present fsin fcos df F _ _ hF hM, hmin⟩,
      fun hF => ⟨_, transform_getCol_present fsin fcos df F _ _ hF hHS, ?_⟩,
      fun hF => ⟨_, transform_getCol_present fsin fcos df F _ _ hF hHC, ?_⟩,
      fun hF => ⟨_, transform_getCol_present fsin fcos df F _ _ hF hMS, ?_⟩,
      fun hF => ⟨_, transform_getCol_present fsin fcos df F _ _ hF hMC, ?_⟩⟩ <;>
      · rw [List.getElem?_map]
        first
          | rw [hhour]
          | rw [hmin]
        simp [cellMap]
  · intro u i q hu hui
    obtain ⟨w, hwp, hS, hC⟩ := preAlign_month fsin fcos df u hu
    have hwi : w[i]? = some (Cell.num q) := hwp i _ hui
    exact ⟨fun hF => ⟨_, transform_getCol_present fsin fcos df F _ _ hF hS,
        by rw [List.getElem?_map, hwi]; simp [cellMap]⟩,
      fun hF => ⟨_, transform_getCol_present fsin fcos df F _ _ hF hC,
        by rw [List.getElem?_map, hwi]; simp [cellMap]⟩⟩
  · intro u i q hu hui
    obtain ⟨w, hwp, hS, hC⟩ := preAlign_dow fsin fcos df u hu
    have hwi : w[i]? = some (Cell.num q) := hwp i _ hui
    exact ⟨fun hF => ⟨_, transform_getCol_present fsin fcos df F _ _ hF hS,
        by rw [List.getElem?_map, hwi]; simp [cellMap]⟩,
      fun hF => ⟨_, transform_getCol_present fsin fcos df F _ _ hF hC,
        by rw [List.getElem?_map, hwi]; simp [cellMap]⟩⟩

/-- Witness for C8 at time 830, month 3 and day-of-week 4, with the
trigonometric parameters instantiated to the identity: hour 830/100,
minute 830 mod 100, and the sine arguments hour/24 and month/12. -/
theorem C8_witness :
    (∃ L, (transform_data_for_inference id id
        ⟨1, [("CRS_DEP_TIME", [Cell.num ((830 : ℤ) : ℚ)]), ("MONTH", [Cell.num 3]),
          ("DAY_OF_WEEK", [Cell.num 4])]⟩
        ["DEP_HOUR", "DEP_MINUTE", "DEP_HOUR_SIN", "MONTH_SIN"]).getCol "DEP_HOUR_SIN"
        = some L ∧ L[0]? = some (Cell.num ((((830 : ℤ) / 100 : ℤ) : ℚ) / 24)))
    ∧ (∃ L, (transform_data_for_inference id id
        ⟨1, [("CRS_DEP_TIME", [Cell.num ((830 : ℤ) : ℚ)]), ("MONTH", [Cell.num 3]),
          ("DAY_OF_WEEK", [Cell.num 4])]⟩
        ["DEP_HOUR", "DEP_MINUTE", "DEP_HOUR_SIN", "MONTH_SIN"]).getCol "MONTH_SIN"
        = some L ∧ L[0]? = some (Cell.num ((3 : ℚ) / 12))) := by
  constructor
  · exact ((C8_cyclical_time_encoding id id
      ⟨1, [("CRS_DEP_TIME", [Cell.num ((830 : ℤ) : ℚ)]), ("MONTH", [Cell.num 3]),
        ("DAY_OF_WEEK", [Cell.num 4])]⟩
      ["DEP_HOUR", "DEP_MINUTE", "DEP_HOUR_SIN", "MONTH_SIN"]).1
      [Cell.num ((830 : ℤ) : ℚ)] 0 830 rfl rfl (by decide) (by decide)).2.2.1 (by decide)
  · exact ((C8_cyclical_time_encoding id id
      ⟨1, [("CRS_DEP_TIME", [Cell.num ((830 : ℤ) : ℚ)]), ("MONTH", [Cell.num 3]),
        ("DAY_OF_WEEK", [Cell.num 4])]⟩
      ["DEP_HOUR", "DEP_MINUTE", "DEP_HOUR_SIN", "MONTH_SIN"]).2.1
      [Cell.num 3] 0 3 rfl rfl).1 (by decide)

end FlightDelay
